import Mathlib

/-!
Shallow embedding of the per-frame character-controller core of
`src/static/js/game_core.js` (a vanilla-JavaScript third-person game template),
together with proofs settling the frozen claims about it.

Modelling conventions:
* `THREE.Vector3` becomes `Vec3` over `ℝ`; vector operations (`add`, `sub`,
  `multiplyScalar`, `dot`, `length`, `lengthSq`, `normalize`) are translated
  literally.  Float arithmetic is idealised as exact real arithmetic.
* External collaborators (the Ammo physics engine, the renderer, the DOM) enter
  as oracle inputs: the post-step body velocity/origin, the contact-manifold
  list, and the result of the grounding ray cast are per-frame inputs; calls
  the pipeline makes to them are recorded as `Effect`s where a claim needs
  them.
* Nullable engine handles (`state.physicsWorld`, `state.Player`, ...) become
  `Bool` presence flags; the player's yaw-only rotation is represented by the
  body-frame basis vectors that `getPlayerBasis` derives from it.
* `if` conditions on reals use classical decidability, hence the definitions
  are `noncomputable`; concrete evaluations in witnesses go through `simp` /
  `norm_num`.
-/

namespace GameCore

open Classical

noncomputable section

/-- A `THREE.Vector3`: three real components. -/
structure Vec3 where
  x : ℝ
  y : ℝ
  z : ℝ

namespace Vec3

/-- The zero vector `new THREE.Vector3(0, 0, 0)`. -/
def zero : Vec3 := ⟨0, 0, 0⟩

/-- `THREE.Vector3.add`. -/
def add (a b : Vec3) : Vec3 := ⟨a.x + b.x, a.y + b.y, a.z + b.z⟩

/-- `THREE.Vector3.sub`. -/
def sub (a b : Vec3) : Vec3 := ⟨a.x - b.x, a.y - b.y, a.z - b.z⟩

/-- `THREE.Vector3.multiplyScalar`. -/
def smul (a : Vec3) (c : ℝ) : Vec3 := ⟨a.x * c, a.y * c, a.z * c⟩

/-- `THREE.Vector3.dot`. -/
def dot (a b : Vec3) : ℝ := a.x * b.x + a.y * b.y + a.z * b.z

/-- `THREE.Vector3.lengthSq`. -/
def normSq (a : Vec3) : ℝ := a.x * a.x + a.y * a.y + a.z * a.z

/-- `THREE.Vector3.length`. -/
def length (a : Vec3) : ℝ := Real.sqrt a.normSq

/-- `THREE.Vector3.addScaledVector a n c` is `a + n * c`. -/
def addScaled (a n : Vec3) (c : ℝ) : Vec3 := a.add (n.smul c)

/-- `THREE.Vector3.normalize`: `divideScalar(this.length() || 1)`; the JS
`|| 1` guard replaces a zero length by `1`. -/
def normalize (a : Vec3) : Vec3 :=
  a.smul (1 / (if a.length = 0 then 1 else a.length))

/-- `v.setY 0` as used by the strafe-damp code. -/
def setY0 (a : Vec3) : Vec3 := ⟨a.x, 0, a.z⟩

end Vec3

/-- The `CONFIG` object of `basic_game.html`: the tunables read by the
per-frame core (string/asset entries are irrelevant here and omitted). -/
structure Config where
  GRAVITY : ℝ
  GROUND_PLANE_Y : ℝ
  PLAYER_RADIUS : ℝ
  PLAYER_HEIGHT : ℝ
  PLAYER_MOVE_MIDAIR : Bool
  PLAYER_MID_AIR_DAMPEN : ℝ
  PLAYER_JUMP_IMPULSE : ℝ
  PLAYER_MAX_SPEED : ℝ
  PLAYER_ACCEL : ℝ
  PLAYER_BRAKE : ℝ
  PLAYER_AIR_ACCEL : ℝ
  PLAYER_AIR_BRAKE : ℝ
  PLAYER_SIDE_DAMP_GROUND : ℝ
  PLAYER_SIDE_DAMP_AIR : ℝ
  PLAYER_USE_STRAFE_DAMP : Bool
  PLAYER_DEFAULT_FRICTION : ℝ
  TURN_SPEED : ℝ
  WALL_SLIDE_FRICTION : ℝ
  WALL_SLIDE_MAX_FALL_SPEED : ℝ
  WALL_NORMAL_MAX_Y : ℝ
  GROUND_NORMAL_MIN_Y : ℝ
  GROUND_BAND_FRACTION : ℝ
  WALL_CLIMB_SPEED : ℝ
  WALL_CLIMB_STICK_SPEED : ℝ
  WALL_CLIMB_MIN_NORMAL : ℝ
  WALL_CLIMB_EXIT_COOLDOWN : ℝ
  CLIMB_ANIM_GRACE_SECONDS : ℝ
  ANIM_AIR_MIN_TIME : ℝ
  MOVE_SPEED_THRESHOLD : ℝ
  FADE_SECONDS : ℝ
  CAMERA_MIN_DISTANCE : ℝ
  CAMERA_MAX_DISTANCE : ℝ
  CAMERA_VERTICAL_OFFSET : ℝ
  CAMERA_MIN_PITCH : ℝ
  CAMERA_MAX_PITCH : ℝ
  CAMERA_BELOW_PLAYER_ENABLE_HEIGHT : ℝ
  CAMERA_MIN_PITCH_BELOW : ℝ
  MOUSE_YAW_SENSITIVITY : ℝ
  MOUSE_PITCH_SENSITIVITY : ℝ

/-- The animation states of `state.playerActions` / `state.playerCurrentState`
(the string keys "idle" / "move" / "in_air" / "climb"). -/
inductive AnimName where
  | idle
  | move
  | in_air
  | climb
deriving DecidableEq

/-- One contact point of a manifold touching the player pair-wise, as read by
`updatePlayerContacts`: which side of the pair the player body is, the signed
distance, the world normal on B and the two world positions. -/
structure Contact where
  isPlayer0 : Bool
  isPlayer1 : Bool
  distance : ℝ
  normal : Vec3
  posA : Vec3
  posB : Vec3

/-- The key flags consumed by `handleInput` (`state.keys` after OR-ing the
arrow and WASD codes as in lines 868-871). -/
structure Keys where
  forwardKey : Bool
  backKey : Bool
  leftKey : Bool
  rightKey : Bool
  space : Bool

/-- The mutable game state created by `createGameState()`, restricted to the
fields the per-frame core reads or writes.  Engine handles become presence
flags; the player's yaw-only body rotation is carried as the rotated basis
vectors `forwardV = quat * (0,0,1)` and `rightV = quat * (1,0,0)` from which
`getPlayerBasis` reads the basis. -/
structure GameState where
  physicsWorld : Bool
  renderer : Bool
  dispatcher : Bool
  Player : Bool
  playerPtr : Bool
  playerMixer : Bool
  keys : Keys
  spaceWasDown : Bool
  playerGrounded : Bool
  playerOnWall : Bool
  playerWallNormal : Vec3
  playerClimbing : Bool
  climbExitTimer : ℝ
  climbAnimGrace : ℝ
  animInAir : Bool
  animAirTimer : ℝ
  playerCurrentAction : Option AnimName
  playerCurrentState : AnimName
  actions : AnimName → Bool
  lastMoveAxis : ℝ
  moveAnimDir : ℝ
  pointerLocked : Bool
  cameraYawInitDone : Bool
  cameraYaw : ℝ
  cameraPitch : ℝ
  cameraDistance : ℝ
  playerHeightAboveGround : ℝ
  cameraPos : Vec3
  bodyPos : Vec3
  bodyVel : Vec3
  forwardV : Vec3
  rightV : Vec3
  friction : ℝ

/-- One iteration of the contact loop of `updatePlayerContacts`
(lines 1064-1101): skip manifolds not involving the player and separated
points, flip the normal when the player is body1, test the ground band and the
wall band, and accumulate the normalized horizontal wall direction. -/
def contactStep (cfg : Config) (groundBandTopY : ℝ) (acc : GameState)
    (c : Contact) : GameState :=
  if ¬(c.isPlayer0 ∨ c.isPlayer1) then acc
  else if 0 ≤ c.distance then acc
  else
    let nx := if c.isPlayer1 then -c.normal.x else c.normal.x
    let ny := if c.isPlayer1 then -c.normal.y else c.normal.y
    let nz := if c.isPlayer1 then -c.normal.z else c.normal.z
    let pPlayer := if c.isPlayer0 then c.posA else c.posB
    let py := pPlayer.y
    let acc1 :=
      if py ≤ groundBandTopY + 0.05 ∧ ny > cfg.GROUND_NORMAL_MIN_Y then
        { acc with playerGrounded := true }
      else acc
    let horizLenSq := nx * nx + nz * nz
    if horizLenSq > 1e-5 ∧ |ny| ≤ cfg.WALL_NORMAL_MAX_Y then
      let len := Real.sqrt horizLenSq
      { acc1 with
        playerOnWall := true
        playerWallNormal :=
          ⟨acc1.playerWallNormal.x + nx / len, acc1.playerWallNormal.y,
            acc1.playerWallNormal.z + nz / len⟩ }
    else acc1

/-- Lines 1104-1108 of `updatePlayerContacts`: when any wall contact
occurred, zero the accumulated normal's vertical component and renormalize it
to unit length unless it is shorter than `1e-6`. -/
def upcRenorm (s1 : GameState) : GameState :=
  if s1.playerOnWall then
    let w : Vec3 := ⟨s1.playerWallNormal.x, 0, s1.playerWallNormal.z⟩
    let l := w.length
    { s1 with playerWallNormal := if l > 1e-6 then w.smul (1 / l) else w }
  else s1

/-- Lines 1110-1113 of `updatePlayerContacts`: landing unconditionally
overrides climbing and resets the climb animation grace timer. -/
def upcLand (s2 : GameState) : GameState :=
  if s2.playerGrounded then
    { s2 with playerClimbing := false, climbAnimGrace := 0 }
  else s2

/-- `updatePlayerContacts(state, CONFIG)` (lines 1049-1114): reset the contact
flags, classify this frame's contact points, renormalize the accumulated wall
normal, and force `climbing = false` on landing. -/
def updatePlayerContacts (s : GameState) (cfg : Config)
    (contacts : List Contact) : GameState :=
  let s0 := { s with
    playerGrounded := false
    playerOnWall := false
    playerWallNormal := Vec3.zero }
  if ¬(s0.Player ∧ s0.dispatcher ∧ s0.playerPtr) then s0
  else
    let centerY := s0.bodyPos.y
    let bottomY := centerY - cfg.PLAYER_HEIGHT / 2
    let groundBandTopY := bottomY + cfg.PLAYER_HEIGHT * cfg.GROUND_BAND_FRACTION
    upcLand (upcRenorm (contacts.foldl (contactStep cfg groundBandTopY) s0))

/-- `isGrounded(state, CONFIG)` (line 915): the classifier flag OR the
downward ray probe; the probe is an external physics query whose result for
this frame enters as the oracle input `rayHit`. -/
def isGrounded (s : GameState) (rayHit : Bool) : Bool :=
  s.playerGrounded || rayHit

/-- `getPlayerBasis(state)` (lines 965-972): the body-frame forward/right
directions derived from the body's (yaw-only) rotation, normalized.  The
state carries the rotated axes `forwardV`/`rightV` directly. -/
def getPlayerBasis (s : GameState) : Vec3 × Vec3 :=
  (s.forwardV.normalize, s.rightV.normalize)

/-- `turn(state, CONFIG, delta, dt)` (lines 1036-1044): compose the body's
rotation with a rotation of `delta * dt` about the Y axis.  On the carried
basis this is `forward ↦ sin a * right + cos a * forward`,
`right ↦ cos a * right - sin a * forward` for `a = delta * dt`. -/
def turn (s : GameState) (delta dt : ℝ) : GameState :=
  let a := delta * dt
  { s with
    forwardV := (s.rightV.smul (Real.sin a)).add (s.forwardV.smul (Real.cos a))
    rightV := (s.rightV.smul (Real.cos a)).sub (s.forwardV.smul (Real.sin a)) }

/-- `jump(state, CONFIG)` (lines 942-946): keep the horizontal velocity and
set the vertical one to the jump impulse. -/
def jump (s : GameState) (cfg : Config) : GameState :=
  { s with bodyVel := ⟨s.bodyVel.x, cfg.PLAYER_JUMP_IMPULSE, s.bodyVel.z⟩ }

/-- `applyWallClimb(state, CONFIG)` (lines 948-953): stick into the wall
horizontally at `stickSpeed` and rise at `climbSpeed`; slide friction. -/
def applyWallClimb (s : GameState) (cfg : Config) : GameState :=
  let stick := s.playerWallNormal.smul (-cfg.WALL_CLIMB_STICK_SPEED)
  { s with
    friction := cfg.WALL_SLIDE_FRICTION
    bodyVel := ⟨stick.x, cfg.WALL_CLIMB_SPEED, stick.z⟩ }

/-- `wallJumpOff(state, CONFIG)` (lines 955-963): launch away from the wall at
the fixed magnitude `8.0` plus the jump impulse vertically, exit climbing and
start the exit cooldown. -/
def wallJumpOff (s : GameState) (cfg : Config) : GameState :=
  let away := s.playerWallNormal.smul (8.0 : ℝ)
  { s with
    bodyVel := ⟨away.x, cfg.PLAYER_JUMP_IMPULSE, away.z⟩
    playerClimbing := false
    climbAnimGrace := 0
    climbExitTimer := cfg.WALL_CLIMB_EXIT_COOLDOWN }

/-- The effective move axis of `applyCharacterMovement` (line 975): forced to
zero when mid-air movement is disabled and the player is airborne. -/
def amMoveAxis (s : GameState) (cfg : Config) (moveAxis : ℝ) (rayHit : Bool) :
    ℝ :=
  if ¬cfg.PLAYER_MOVE_MIDAIR ∧ ¬(isGrounded s rayHit) then 0 else moveAxis

/-- The wall-sliding condition of `applyCharacterMovement` (line 984):
airborne, on a wall and moving. -/
def amWallSliding (s : GameState) (moveAxis : ℝ) (rayHit : Bool) : Prop :=
  ¬(isGrounded s rayHit) ∧ s.playerOnWall ∧ moveAxis ≠ 0

/-- The magnitude-clamped velocity step of `applyCharacterMovement`
(lines 998-1003): `delta = target - current`, scaled down to `rate * dt` when
its length exceeds both `rate * dt` and `1e-6`, then added to `current`. -/
def amStepVel (current target : Vec3) (rate dt : ℝ) : Vec3 :=
  let maxDelta := rate * dt
  let delta0 := target.sub current
  let deltaLen := delta0.length
  let delta :=
    if deltaLen > maxDelta ∧ deltaLen > 1e-6 then
      delta0.smul (maxDelta / deltaLen)
    else delta0
  current.add delta

/-- Lines 977-1017 of `applyCharacterMovement`: the horizontal velocity
produced from the current one by the desired-velocity computation, the
wall-slide redirect, the clamped step and the optional strafe damping, before
the final speed clamp. -/
def amPreVel (s : GameState) (cfg : Config) (moveAxis dt : ℝ)
    (rayHit : Bool) : Vec3 :=
  let lv := s.bodyVel
  let current : Vec3 := ⟨lv.x, 0, lv.z⟩
  let forward := (getPlayerBasis s).1
  let right := (getPlayerBasis s).2
  let desired0 := forward.smul (cfg.PLAYER_MAX_SPEED * moveAxis)
  let grounded := isGrounded s rayHit
  let desired :=
    if amWallSliding s moveAxis rayHit ∧ s.playerWallNormal.normSq > 1e-6 then
      let into := desired0.dot s.playerWallNormal
      if into > 0 then desired0.addScaled s.playerWallNormal (-into)
      else desired0
    else desired0
  let accel :=
    if grounded then cfg.PLAYER_ACCEL
    else cfg.PLAYER_AIR_ACCEL * cfg.PLAYER_MID_AIR_DAMPEN
  let brake := if grounded then cfg.PLAYER_BRAKE else cfg.PLAYER_AIR_BRAKE
  let target := if moveAxis ≠ 0 then desired else Vec3.zero
  let rate := if moveAxis ≠ 0 then accel else brake
  let newVel0 := amStepVel current target rate dt
  if cfg.PLAYER_USE_STRAFE_DAMP then
    let sideDamp :=
      if grounded then cfg.PLAYER_SIDE_DAMP_GROUND else cfg.PLAYER_SIDE_DAMP_AIR
    let f := forward.setY0.normalize
    let r := right.setY0.normalize
    let fSpd := newVel0.dot f
    let rSpd := newVel0.dot r
    let rKeep := Real.exp (-sideDamp * dt)
    (f.smul fSpd).add (r.smul (rSpd * rKeep))
  else newVel0

/-- Lines 1019-1033 of `applyCharacterMovement`: clamp the horizontal speed to
`maxSpeed`, floor the fall speed and re-strip the into-wall component while
wall-sliding, select friction, and write the velocity back to the body. -/
def amFinish (s : GameState) (cfg : Config) (lv : Vec3) (wallSliding : Prop)
    (newVel1 : Vec3) : GameState :=
  let spd := newVel1.length
  let newVel2 :=
    if spd > cfg.PLAYER_MAX_SPEED then newVel1.smul (cfg.PLAYER_MAX_SPEED / spd)
    else newVel1
  let slide := wallSliding ∧ s.playerWallNormal.normSq > 1e-6
  let vy :=
    if slide then
      if lv.y < cfg.WALL_SLIDE_MAX_FALL_SPEED then cfg.WALL_SLIDE_MAX_FALL_SPEED
      else lv.y
    else lv.y
  let newVel3 :=
    if slide then
      let into2 := newVel2.dot s.playerWallNormal
      if into2 > 0 then newVel2.addScaled s.playerWallNormal (-into2)
      else newVel2
    else newVel2
  let fric := if slide then cfg.WALL_SLIDE_FRICTION else cfg.PLAYER_DEFAULT_FRICTION
  { s with bodyVel := ⟨newVel3.x, vy, newVel3.z⟩, friction := fric }

/-- `applyCharacterMovement(state, CONFIG, moveAxis, dt)` (lines 974-1034),
assembled from its phases above.  `rayHit` is this frame's (deterministic)
result of the external grounding ray cast used by the `isGrounded` calls. -/
def applyCharacterMovement (s : GameState) (cfg : Config) (moveAxis0 dt : ℝ)
    (rayHit : Bool) : GameState :=
  let moveAxis := amMoveAxis s cfg moveAxis0 rayHit
  amFinish s cfg s.bodyVel (amWallSliding s moveAxis rayHit)
    (amPreVel s cfg moveAxis dt rayHit)

/-- The climb-gating block of `handleInput` (lines 884-902): `wallOkPhysics`,
`canAttemptClimb` and the enter/stay/leave branches of the climb state
machine.  `grounded` and `moveAxis` are the values `handleInput` computed just
before the block; the state's `climbExitTimer` is the already-decremented
cooldown of this frame. -/
def climbGate (s : GameState) (cfg : Config) (grounded : Bool)
    (moveAxis : ℝ) : GameState :=
  let wallOkPhysics :=
    s.playerOnWall ∧ s.playerWallNormal.length ≥ cfg.WALL_CLIMB_MIN_NORMAL
  let canAttemptClimb := ¬grounded ∧ moveAxis > 0 ∧ s.climbExitTimer ≤ 0
  if s.playerClimbing then
    if grounded ∨ moveAxis ≤ 0 then
      { s with playerClimbing := false, climbAnimGrace := 0 }
    else if canAttemptClimb ∧ wallOkPhysics then
      { s with playerClimbing := true,
               climbAnimGrace := cfg.CLIMB_ANIM_GRACE_SECONDS }
    else if s.climbAnimGrace ≤ 0 then { s with playerClimbing := false }
    else s
  else
    if canAttemptClimb ∧ wallOkPhysics then
      { s with playerClimbing := true,
               climbAnimGrace := cfg.CLIMB_ANIM_GRACE_SECONDS }
    else s

/-- The timer ticks at the top of `handleInput` (lines 865-866): count the
climb exit cooldown and the climb animation grace down toward zero. -/
def hiTimers (s : GameState) (dt : ℝ) : GameState :=
  { s with
    climbExitTimer :=
      if s.climbExitTimer > 0 then max 0 (s.climbExitTimer - dt)
      else s.climbExitTimer
    climbAnimGrace :=
      if s.climbAnimGrace > 0 then max 0 (s.climbAnimGrace - dt)
      else s.climbAnimGrace }

/-- The move axis of `handleInput` (lines 876-878): `+1` for forward, `-1`
for back, summed. -/
def hiMoveAxis (k : Keys) : ℝ :=
  (if k.forwardKey then 1 else 0) - (if k.backKey then 1 else 0)

/-- The edge-triggered jump block of `handleInput` (lines 907-912): a jump or
wall jump fires only on a frame where Space is down and was not down on the
previous frame; the latch `spaceWasDown` is then refreshed. -/
def hiJump (s : GameState) (cfg : Config) (grounded : Bool) : GameState :=
  let spaceDown := s.keys.space
  let s7 :=
    if spaceDown ∧ ¬s.spaceWasDown then
      if s.playerClimbing then wallJumpOff s cfg
      else if grounded then jump s cfg
      else s
    else s
  { s7 with spaceWasDown := spaceDown }

/-- The timer/turn prefix of `handleInput` (lines 865-874): tick the climb
timers, then turn left/right according to the held keys. -/
def hiTurned (s : GameState) (cfg : Config) (dt : ℝ) : GameState :=
  let s1 := hiTimers s dt
  let s2 := if s1.keys.leftKey then turn s1 cfg.TURN_SPEED dt else s1
  if s2.keys.rightKey then turn s2 (-cfg.TURN_SPEED) dt else s2

/-- The body of `handleInput` once the player handle is known present
(lines 865-912): timers and turning, move axis, climb gate, movement or
climbing, edge-triggered jump. -/
def hiCore (s : GameState) (cfg : Config) (dt : ℝ) (rayHit : Bool) :
    GameState :=
  let s3 := hiTurned s cfg dt
  let s4 : GameState := { s3 with lastMoveAxis := hiMoveAxis s3.keys }
  let grounded := isGrounded s4 rayHit
  let s5 := climbGate s4 cfg grounded (hiMoveAxis s3.keys)
  let s6 :=
    if ¬s5.playerClimbing then
      applyCharacterMovement s5 cfg (hiMoveAxis s3.keys) dt rayHit
    else applyWallClimb s5 cfg
  hiJump s6 cfg grounded

/-- `handleInput(state, CONFIG, dt)` (lines 862-913): early-out when the
player body is absent, else run the input/climb/movement/jump sequence. -/
def handleInput (s : GameState) (cfg : Config) (dt : ℝ) (rayHit : Bool) :
    GameState :=
  if ¬s.Player then s
  else hiCore s cfg dt rayHit

/-- `playPlayerAction(state, CONFIG, name, immediate)` (lines 811-827): no-op
when the clip is missing or already current; otherwise make it current (the
cross-fade or hard cut itself lives in the external mixer). -/
def playPlayerAction (s : GameState) (name : AnimName) : GameState :=
  if ¬s.actions name then s
  else if s.playerCurrentAction = some name then s
  else { s with playerCurrentAction := some name, playerCurrentState := name }

/-- `applyMoveAnimDirection(state, dir, force)` (lines 829-847): flip the move
clip's playback direction to the sign of `dir`; the time-scale/time writes go
to the external action handle, the remembered direction is state. -/
def applyMoveAnimDirection (s : GameState) (dir : ℝ) (force : Bool) :
    GameState :=
  if ¬s.actions AnimName.move then s
  else
    let clampedDir : ℝ := if dir < 0 then -1 else 1
    if ¬force ∧ clampedDir = s.moveAnimDir then s
    else { s with moveAnimDir := clampedDir }

/-- Lines 1139-1153 of `updatePlayerAnimationState`: pick the desired clip
from the air latch and the horizontal speed, cross-fade to it when it changed,
and match the move clip's playback direction to the last input sign. -/
def animSelect (s1 : GameState) (cfg : Config) : GameState :=
  let horizSpeed :=
    Real.sqrt (s1.bodyVel.x * s1.bodyVel.x + s1.bodyVel.z * s1.bodyVel.z)
  let desired :=
    if s1.animInAir then AnimName.in_air
    else if horizSpeed > cfg.MOVE_SPEED_THRESHOLD then AnimName.move
    else AnimName.idle
  let s2 :=
    if desired ≠ s1.playerCurrentState then playPlayerAction s1 desired
    else s1
  if desired = AnimName.move then
    applyMoveAnimDirection s2 (if s2.lastMoveAxis < 0 then -1 else 1) false
  else if s2.moveAnimDir ≠ 1 then applyMoveAnimDirection s2 1 false
  else s2

/-- Lines 1131-1137 of `updatePlayerAnimationState`: the air-latch gate: a
grounded frame resets latch and timer, an airborne frame accumulates the timer
and switches the latch on once the timer reaches `ANIM_AIR_MIN_TIME`. -/
def animAirGate (s : GameState) (cfg : Config) (dt : ℝ) (rayHit : Bool) :
    GameState :=
  if isGrounded s rayHit then { s with animInAir := false, animAirTimer := 0 }
  else
    let t := s.animAirTimer + dt
    { s with
      animAirTimer := t
      animInAir :=
        if ¬s.animInAir ∧ t ≥ cfg.ANIM_AIR_MIN_TIME then true
        else s.animInAir }

/-- `updatePlayerAnimationState(state, CONFIG, dt)` (lines 1119-1154): climb
override, air-latch debounce gate, speed-based idle/move selection, and move
playback direction. -/
def updatePlayerAnimationState (s : GameState) (cfg : Config) (dt : ℝ)
    (rayHit : Bool) : GameState :=
  if ¬(s.Player ∧ s.playerMixer) then s
  else if s.playerClimbing ∨ s.climbAnimGrace > 0 then
    let s1 := { s with animInAir := false, animAirTimer := 0 }
    if s1.playerCurrentState ≠ AnimName.climb then playPlayerAction s1 .climb
    else s1
  else animSelect (animAirGate s cfg dt rayHit) cfg

/-- `getDynamicMinPitch(state, CONFIG)` (lines 1221-1225). -/
def getDynamicMinPitch (s : GameState) (cfg : Config) : ℝ :=
  if s.playerHeightAboveGround > cfg.CAMERA_BELOW_PLAYER_ENABLE_HEIGHT then
    cfg.CAMERA_MIN_PITCH_BELOW
  else cfg.CAMERA_MIN_PITCH

/-- `THREE.MathUtils.clamp(value, min, max) = Math.max(min, Math.min(max, value))`. -/
def clampR (v lo hi : ℝ) : ℝ := max lo (min hi v)

/-- `Math.atan2 y x`. -/
def atan2r (y x : ℝ) : ℝ :=
  if x > 0 then Real.arctan (y / x)
  else if x < 0 then
    if y ≥ 0 then Real.arctan (y / x) + Real.pi
    else Real.arctan (y / x) - Real.pi
  else if y > 0 then Real.pi / 2
  else if y < 0 then -(Real.pi / 2)
  else 0

/-- The `mousemove` pointer handler installed by `initThree` (lines 169-179):
while pointer-locked, accumulate yaw and clamp the adjusted pitch into
`[dynamicMinPitch, maxPitch]`. -/
def onMouseMove (s : GameState) (cfg : Config) (movementX movementY : ℝ) :
    GameState :=
  if ¬s.pointerLocked then s
  else
    { s with
      cameraYaw := s.cameraYaw - movementX * cfg.MOUSE_YAW_SENSITIVITY
      cameraPitch :=
        clampR (s.cameraPitch - movementY * cfg.MOUSE_PITCH_SENSITIVITY)
          (getDynamicMinPitch s cfg) cfg.CAMERA_MAX_PITCH }

/-- `updateCamera(state, CONFIG)` (lines 1227-1269): refresh the height above
the ground plane, lazily initialize yaw/pitch/distance from the existing
camera offset, clamp the pitch every frame, and move the camera a fixed 0.15
fraction toward the spherical follow position. -/
def updateCamera (s : GameState) (cfg : Config) : GameState :=
  if ¬s.Player then s
  else
    let targetPos := s.bodyPos
    let sA := { s with playerHeightAboveGround := targetPos.y - cfg.GROUND_PLANE_Y }
    let sB :=
      if ¬sA.cameraYawInitDone then
        let toCam := sA.cameraPos.sub targetPos
        let dist :=
          clampR toCam.length cfg.CAMERA_MIN_DISTANCE cfg.CAMERA_MAX_DISTANCE
        let yaw := atan2r toCam.x toCam.z
        let hl0 := Real.sqrt (toCam.x * toCam.x + toCam.z * toCam.z)
        let horizLen := if hl0 = 0 then 1e-6 else hl0
        let pitch0 := atan2r toCam.y horizLen
        { sA with
          cameraDistance := dist
          cameraYaw := yaw
          cameraPitch :=
            clampR pitch0 (getDynamicMinPitch sA cfg) cfg.CAMERA_MAX_PITCH
          cameraYawInitDone := true }
      else sA
    let sC := { sB with
      cameraPitch :=
        clampR sB.cameraPitch (getDynamicMinPitch sB cfg) cfg.CAMERA_MAX_PITCH }
    let horiz := sC.cameraDistance * Real.cos sC.cameraPitch
    let yOff := sC.cameraDistance * Real.sin sC.cameraPitch
    let xOff := horiz * Real.sin sC.cameraYaw
    let zOff := horiz * Real.cos sC.cameraYaw
    let desiredPos : Vec3 :=
      ⟨targetPos.x + xOff,
        targetPos.y + yOff + cfg.CAMERA_VERTICAL_OFFSET * 0.15,
        targetPos.z + zOff⟩
    { sC with
      cameraPos := sC.cameraPos.add ((desiredPos.sub sC.cameraPos).smul 0.15) }

/-- The external calls `stepCore` itself makes, recorded as an observable
trace: the physics integration step, the scene-graph sync, the animation-mixer
advance, and the render call. -/
inductive Effect where
  | physicsStep (dt : ℝ)
  | syncVisuals
  | mixerUpdate (dt : ℝ)
  | renderFrame

/-- The per-frame oracle inputs from the external engine: the frame delta, the
contact manifolds after this frame's physics step, the grounding-ray result,
and the player body's post-step linear velocity and origin. -/
structure FrameIn where
  dt : ℝ
  contacts : List Contact
  rayHit : Bool
  postVel : Vec3
  postPos : Vec3

/-- `stepCore(state, CONFIG, dt)` (lines 108-128): the frame pipeline.
Returns the new state and the trace of external calls made.  The physics
step's outcome on the player body enters through the oracle fields of `fi`;
`syncVisualsFromPhysics` only writes the external scene graph. -/
def stepCore (s : GameState) (cfg : Config) (fi : FrameIn) :
    GameState × List Effect :=
  if ¬(s.physicsWorld ∧ s.renderer) then (s, [])
  else
    let sPhys :=
      if s.Player then { s with bodyVel := fi.postVel, bodyPos := fi.postPos }
      else s
    let sContacts := updatePlayerContacts sPhys cfg fi.contacts
    let sInput := handleInput sContacts cfg fi.dt fi.rayHit
    let sAnim := updatePlayerAnimationState sInput cfg fi.dt fi.rayHit
    let sCam := updateCamera sAnim cfg
    (sCam,
      [Effect.physicsStep fi.dt, Effect.syncVisuals] ++
        (if sInput.playerMixer then [Effect.mixerUpdate fi.dt] else []) ++
        [Effect.renderFrame])

/-! ## Basic vector lemmas -/

theorem Vec3.normSq_nonneg (a : Vec3) : 0 ≤ a.normSq := by
  have hx := mul_self_nonneg a.x
  have hy := mul_self_nonneg a.y
  have hz := mul_self_nonneg a.z
  simp only [normSq]; linarith

theorem Vec3.length_nonneg (a : Vec3) : 0 ≤ a.length :=
  Real.sqrt_nonneg _

theorem Vec3.normSq_smul (a : Vec3) (c : ℝ) :
    (a.smul c).normSq = c ^ 2 * a.normSq := by
  simp only [normSq, smul]; ring

theorem Vec3.length_smul (a : Vec3) (c : ℝ) :
    (a.smul c).length = |c| * a.length := by
  rw [length, normSq_smul, Real.sqrt_mul (sq_nonneg c), Real.sqrt_sq_eq_abs,
    length]

theorem Vec3.length_eq_zero_iff (a : Vec3) : a.length = 0 ↔ a.normSq = 0 := by
  rw [length, Real.sqrt_eq_zero (a.normSq_nonneg)]

/-- Stripping the `n`-component: the squared length drops by
`(a⬝n)² (2 - ‖n‖²)`. -/
theorem Vec3.normSq_strip (a n : Vec3) :
    (a.addScaled n (-(a.dot n))).normSq =
      a.normSq - (a.dot n) ^ 2 * (2 - n.normSq) := by
  simp only [normSq, addScaled, add, smul, dot]; ring

/-! ## Field-preservation lemmas for the state transformers -/

@[simp] theorem turn_Player (s : GameState) (d t : ℝ) :
    (turn s d t).Player = s.Player := rfl

@[simp] theorem turn_playerClimbing (s : GameState) (d t : ℝ) :
    (turn s d t).playerClimbing = s.playerClimbing := rfl

@[simp] theorem turn_playerGrounded (s : GameState) (d t : ℝ) :
    (turn s d t).playerGrounded = s.playerGrounded := rfl

@[simp] theorem turn_playerOnWall (s : GameState) (d t : ℝ) :
    (turn s d t).playerOnWall = s.playerOnWall := rfl

@[simp] theorem turn_playerWallNormal (s : GameState) (d t : ℝ) :
    (turn s d t).playerWallNormal = s.playerWallNormal := rfl

@[simp] theorem turn_climbExitTimer (s : GameState) (d t : ℝ) :
    (turn s d t).climbExitTimer = s.climbExitTimer := rfl

@[simp] theorem turn_climbAnimGrace (s : GameState) (d t : ℝ) :
    (turn s d t).climbAnimGrace = s.climbAnimGrace := rfl

@[simp] theorem turn_keys (s : GameState) (d t : ℝ) :
    (turn s d t).keys = s.keys := rfl

@[simp] theorem turn_spaceWasDown (s : GameState) (d t : ℝ) :
    (turn s d t).spaceWasDown = s.spaceWasDown := rfl

@[simp] theorem turn_bodyVel (s : GameState) (d t : ℝ) :
    (turn s d t).bodyVel = s.bodyVel := rfl

@[simp] theorem applyCharacterMovement_playerClimbing (s : GameState)
    (cfg : Config) (ma dt : ℝ) (r : Bool) :
    (applyCharacterMovement s cfg ma dt r).playerClimbing =
      s.playerClimbing := rfl

@[simp] theorem applyCharacterMovement_playerGrounded (s : GameState)
    (cfg : Config) (ma dt : ℝ) (r : Bool) :
    (applyCharacterMovement s cfg ma dt r).playerGrounded =
      s.playerGrounded := rfl

@[simp] theorem applyCharacterMovement_keys (s : GameState)
    (cfg : Config) (ma dt : ℝ) (r : Bool) :
    (applyCharacterMovement s cfg ma dt r).keys = s.keys := rfl

@[simp] theorem applyCharacterMovement_spaceWasDown (s : GameState)
    (cfg : Config) (ma dt : ℝ) (r : Bool) :
    (applyCharacterMovement s cfg ma dt r).spaceWasDown =
      s.spaceWasDown := rfl

@[simp] theorem applyCharacterMovement_Player (s : GameState)
    (cfg : Config) (ma dt : ℝ) (r : Bool) :
    (applyCharacterMovement s cfg ma dt r).Player = s.Player := rfl

@[simp] theorem applyWallClimb_playerClimbing (s : GameState) (cfg : Config) :
    (applyWallClimb s cfg).playerClimbing = s.playerClimbing := rfl

@[simp] theorem applyWallClimb_keys (s : GameState) (cfg : Config) :
    (applyWallClimb s cfg).keys = s.keys := rfl

@[simp] theorem applyWallClimb_spaceWasDown (s : GameState) (cfg : Config) :
    (applyWallClimb s cfg).spaceWasDown = s.spaceWasDown := rfl

@[simp] theorem applyWallClimb_Player (s : GameState) (cfg : Config) :
    (applyWallClimb s cfg).Player = s.Player := rfl

@[simp] theorem jump_playerClimbing (s : GameState) (cfg : Config) :
    (jump s cfg).playerClimbing = s.playerClimbing := rfl

@[simp] theorem jump_Player (s : GameState) (cfg : Config) :
    (jump s cfg).Player = s.Player := rfl

@[simp] theorem wallJumpOff_playerClimbing (s : GameState) (cfg : Config) :
    (wallJumpOff s cfg).playerClimbing = false := rfl

@[simp] theorem wallJumpOff_Player (s : GameState) (cfg : Config) :
    (wallJumpOff s cfg).Player = s.Player := rfl

theorem climbGate_keys (s : GameState) (cfg : Config) (g : Bool) (ma : ℝ) :
    (climbGate s cfg g ma).keys = s.keys := by
  simp only [climbGate]; split_ifs <;> rfl

theorem climbGate_spaceWasDown (s : GameState) (cfg : Config) (g : Bool)
    (ma : ℝ) : (climbGate s cfg g ma).spaceWasDown = s.spaceWasDown := by
  simp only [climbGate]; split_ifs <;> rfl

theorem climbGate_Player (s : GameState) (cfg : Config) (g : Bool) (ma : ℝ) :
    (climbGate s cfg g ma).Player = s.Player := by
  simp only [climbGate]; split_ifs <;> rfl

theorem climbGate_playerGrounded (s : GameState) (cfg : Config) (g : Bool)
    (ma : ℝ) : (climbGate s cfg g ma).playerGrounded = s.playerGrounded := by
  simp only [climbGate]; split_ifs <;> rfl

/-! ## Concrete configuration and state used by witnesses -/

/-- The documented default `CONFIG` values of `basic_game.html`. -/
def defaultConfig : Config where
  GRAVITY := -9.81
  GROUND_PLANE_Y := 0
  PLAYER_RADIUS := 2
  PLAYER_HEIGHT := 8
  PLAYER_MOVE_MIDAIR := true
  PLAYER_MID_AIR_DAMPEN := 0.5
  PLAYER_JUMP_IMPULSE := 25
  PLAYER_MAX_SPEED := 15
  PLAYER_ACCEL := 55
  PLAYER_BRAKE := 75
  PLAYER_AIR_ACCEL := 18
  PLAYER_AIR_BRAKE := 8
  PLAYER_SIDE_DAMP_GROUND := 18
  PLAYER_SIDE_DAMP_AIR := 2
  PLAYER_USE_STRAFE_DAMP := true
  PLAYER_DEFAULT_FRICTION := 2.5
  TURN_SPEED := 3
  WALL_SLIDE_FRICTION := 0.15
  WALL_SLIDE_MAX_FALL_SPEED := -8
  WALL_NORMAL_MAX_Y := 0.30
  GROUND_NORMAL_MIN_Y := 0.10
  GROUND_BAND_FRACTION := 0.10
  WALL_CLIMB_SPEED := 9.5
  WALL_CLIMB_STICK_SPEED := 3
  WALL_CLIMB_MIN_NORMAL := 0.5
  WALL_CLIMB_EXIT_COOLDOWN := 0.3
  CLIMB_ANIM_GRACE_SECONDS := 1
  ANIM_AIR_MIN_TIME := 0.10
  MOVE_SPEED_THRESHOLD := 0.6
  FADE_SECONDS := 0.15
  CAMERA_MIN_DISTANCE := 20
  CAMERA_MAX_DISTANCE := 40
  CAMERA_VERTICAL_OFFSET := 20
  CAMERA_MIN_PITCH := 0.15
  CAMERA_MAX_PITCH := 1.20
  CAMERA_BELOW_PLAYER_ENABLE_HEIGHT := 18
  CAMERA_MIN_PITCH_BELOW := -0.65
  MOUSE_YAW_SENSITIVITY := 0.0025
  MOUSE_PITCH_SENSITIVITY := 0.0020

/-- A concrete baseline state for witnesses: all engine handles present, all
clips loaded, neutral dynamic values, body at rest facing +z. -/
def baseState : GameState where
  physicsWorld := true
  renderer := true
  dispatcher := true
  Player := true
  playerPtr := true
  playerMixer := true
  keys := ⟨false, false, false, false, false⟩
  spaceWasDown := false
  playerGrounded := false
  playerOnWall := false
  playerWallNormal := Vec3.zero
  playerClimbing := false
  climbExitTimer := 0
  climbAnimGrace := 0
  animInAir := false
  animAirTimer := 0
  playerCurrentAction := some .idle
  playerCurrentState := .idle
  actions := fun _ => true
  lastMoveAxis := 0
  moveAnimDir := 1
  pointerLocked := true
  cameraYawInitDone := true
  cameraYaw := 0
  cameraPitch := 0.5
  cameraDistance := 30
  playerHeightAboveGround := 0
  cameraPos := ⟨0, 55, 100⟩
  bodyPos := ⟨0, 4, 0⟩
  bodyVel := Vec3.zero
  forwardV := ⟨0, 0, 1⟩
  rightV := ⟨1, 0, 0⟩
  friction := 2.5

/-! ## C1: climb entry happens iff all four gate conditions hold -/

/-- C1.  In the climb state machine of `handleInput` a non-climbing player
becomes climbing exactly when all four conditions hold at once: airborne,
positive forward move axis, exit cooldown already elapsed, and the
wall-confidence test (`onWall` with wall-normal length at least
`WALL_CLIMB_MIN_NORMAL`); dropping any single condition blocks the entry. -/
theorem climb_entry_iff (s : GameState) (cfg : Config) (grounded : Bool)
    (moveAxis : ℝ) (h : s.playerClimbing = false) :
    (climbGate s cfg grounded moveAxis).playerClimbing = true ↔
      (grounded = false ∧ 0 < moveAxis ∧ s.climbExitTimer ≤ 0 ∧
        s.playerOnWall = true ∧
        cfg.WALL_CLIMB_MIN_NORMAL ≤ s.playerWallNormal.length) := by
  unfold climbGate
  simp only [h, Bool.false_eq_true, if_false]
  by_cases hc :
      (¬grounded = true ∧ 0 < moveAxis ∧ s.climbExitTimer ≤ 0) ∧
        (s.playerOnWall = true ∧
          cfg.WALL_CLIMB_MIN_NORMAL ≤ s.playerWallNormal.length)
  · simp only [if_pos hc]
    simp only [Bool.not_eq_true] at hc
    simp [hc.1.1, hc.1.2.1, hc.1.2.2, hc.2.1, hc.2.2]
  · rw [if_neg hc, h]
    simp only [Bool.false_eq_true, false_iff]
    intro ⟨h1, h2, h3, h4, h5⟩
    exact hc ⟨⟨by simp [h1], h2, h3⟩, h4, h5⟩

/-- Witness for C1: with the default configuration, airborne, forward held,
cooldown elapsed and a unit wall normal, the gate does enter climbing. -/
theorem climb_entry_iff_witness :
    (climbGate { baseState with
        playerOnWall := true
        playerWallNormal := ⟨1, 0, 0⟩ } defaultConfig false 1).playerClimbing
      = true := by
  refine (climb_entry_iff _ _ _ _ rfl).mpr ⟨rfl, one_pos, le_refl 0, rfl, ?_⟩
  have h1 : Vec3.length ⟨1, 0, 0⟩ = 1 := by
    simp [Vec3.length, Vec3.normSq]
  rw [h1]
  norm_num [defaultConfig]

/-! ## C3: landing overrides climbing -/

theorem contactStep_Player (cfg : Config) (b : ℝ) (a : GameState)
    (c : Contact) : (contactStep cfg b a c).Player = a.Player := by
  simp only [contactStep]; split_ifs <;> rfl

theorem contactStep_playerClimbing (cfg : Config) (b : ℝ) (a : GameState)
    (c : Contact) :
    (contactStep cfg b a c).playerClimbing = a.playerClimbing := by
  simp only [contactStep]; split_ifs <;> rfl

theorem contactStep_climbAnimGrace (cfg : Config) (b : ℝ) (a : GameState)
    (c : Contact) :
    (contactStep cfg b a c).climbAnimGrace = a.climbAnimGrace := by
  simp only [contactStep]; split_ifs <;> rfl

theorem foldl_contactStep_Player (cfg : Config) (b : ℝ) (cs : List Contact) :
    ∀ a : GameState, (cs.foldl (contactStep cfg b) a).Player = a.Player := by
  induction cs with
  | nil => intro a; rfl
  | cons c cs ih => intro a; rw [List.foldl_cons, ih, contactStep_Player]

theorem foldl_contactStep_playerClimbing (cfg : Config) (b : ℝ)
    (cs : List Contact) :
    ∀ a : GameState,
      (cs.foldl (contactStep cfg b) a).playerClimbing = a.playerClimbing := by
  induction cs with
  | nil => intro a; rfl
  | cons c cs ih =>
    intro a; rw [List.foldl_cons, ih, contactStep_playerClimbing]

theorem foldl_contactStep_climbAnimGrace (cfg : Config) (b : ℝ)
    (cs : List Contact) :
    ∀ a : GameState,
      (cs.foldl (contactStep cfg b) a).climbAnimGrace = a.climbAnimGrace := by
  induction cs with
  | nil => intro a; rfl
  | cons c cs ih =>
    intro a; rw [List.foldl_cons, ih, contactStep_climbAnimGrace]

theorem upcRenorm_Player (s : GameState) :
    (upcRenorm s).Player = s.Player := by
  simp only [upcRenorm]; split_ifs <;> rfl

theorem upcLand_Player (s : GameState) : (upcLand s).Player = s.Player := by
  simp only [upcLand]; split_ifs <;> rfl

/-- The classifier never changes the player handle. -/
theorem updatePlayerContacts_Player (s : GameState) (cfg : Config)
    (cs : List Contact) :
    (updatePlayerContacts s cfg cs).Player = s.Player := by
  simp only [updatePlayerContacts]
  split_ifs with h1
  · rw [upcLand_Player, upcRenorm_Player, foldl_contactStep_Player]
  · rfl

/-- Landing forces non-climbing: the flag and grace reset of `upcLand`. -/
theorem upcLand_grounded_case (x : GameState)
    (h : (upcLand x).playerGrounded = true) :
    (upcLand x).playerClimbing = false ∧ (upcLand x).climbAnimGrace = 0 := by
  simp only [upcLand] at *
  split_ifs at h ⊢ with hx
  · exact ⟨rfl, rfl⟩
  · exact absurd h (by simpa using hx)

/-- The climb gate never leaves the player climbing on a grounded frame. -/
theorem climbGate_grounded (s : GameState) (cfg : Config) (ma : ℝ) :
    (climbGate s cfg true ma).playerClimbing = false := by
  simp only [climbGate]
  split_ifs <;> simp_all

@[simp] theorem hiTimers_keys (s : GameState) (dt : ℝ) :
    (hiTimers s dt).keys = s.keys := rfl

@[simp] theorem hiTimers_Player (s : GameState) (dt : ℝ) :
    (hiTimers s dt).Player = s.Player := rfl

@[simp] theorem hiTimers_playerGrounded (s : GameState) (dt : ℝ) :
    (hiTimers s dt).playerGrounded = s.playerGrounded := rfl

@[simp] theorem hiTimers_spaceWasDown (s : GameState) (dt : ℝ) :
    (hiTimers s dt).spaceWasDown = s.spaceWasDown := rfl

@[simp] theorem hiTimers_playerClimbing (s : GameState) (dt : ℝ) :
    (hiTimers s dt).playerClimbing = s.playerClimbing := rfl

theorem hiJump_playerClimbing (s : GameState) (cfg : Config) (g : Bool)
    (h : s.playerClimbing = false) :
    (hiJump s cfg g).playerClimbing = false := by
  simp only [hiJump]
  split_ifs <;> simp_all

theorem hiTurned_playerGrounded (s : GameState) (cfg : Config) (dt : ℝ) :
    (hiTurned s cfg dt).playerGrounded = s.playerGrounded := by
  simp only [hiTurned]
  split_ifs <;> simp

theorem hiTurned_playerClimbing (s : GameState) (cfg : Config) (dt : ℝ) :
    (hiTurned s cfg dt).playerClimbing = s.playerClimbing := by
  simp only [hiTurned]
  split_ifs <;> simp

/-- On a frame whose classifier reported grounded, `hiCore` ends with
`climbing = false`: the gate exits or refuses climbing while grounded, and
neither the movement application nor the jump block can re-enter it. -/
theorem hiCore_not_climbing_of_grounded (s : GameState) (cfg : Config)
    (dt : ℝ) (rayHit : Bool) (hg : s.playerGrounded = true) :
    (hiCore s cfg dt rayHit).playerClimbing = false := by
  simp only [hiCore]
  have hgg :
      isGrounded { hiTurned s cfg dt with
          lastMoveAxis := hiMoveAxis (hiTurned s cfg dt).keys } rayHit
        = true := by
    simp [isGrounded, hiTurned_playerGrounded, hg]
  rw [hgg]
  have h5 := climbGate_grounded
    { hiTurned s cfg dt with lastMoveAxis := hiMoveAxis (hiTurned s cfg dt).keys }
    cfg (hiMoveAxis (hiTurned s cfg dt).keys)
  apply hiJump_playerClimbing
  split_ifs with h6 <;> simp_all

/-- On a frame whose classifier reported grounded, `handleInput` ends with
`climbing = false`. -/
theorem handleInput_not_climbing_of_grounded (s : GameState) (cfg : Config)
    (dt : ℝ) (rayHit : Bool) (hg : s.playerGrounded = true)
    (hc : s.playerClimbing = false) :
    (handleInput s cfg dt rayHit).playerClimbing = false := by
  rw [handleInput]
  by_cases hp : s.Player = true
  · rw [if_neg (by simp [hp])]
    exact hiCore_not_climbing_of_grounded s cfg dt rayHit hg
  · rw [if_pos (by simp [hp])]
    exact hc

/-- C3.  Whenever the contact classifier reports grounded for a frame, it has
unconditionally forced `climbing = false` and reset the climb animation grace
timer to zero; and running the input/climb state machine on such a frame still
ends with `climbing = false` (no same-frame re-entry while grounded). -/
theorem landing_overrides_climbing :
    (∀ (s : GameState) (cfg : Config) (cs : List Contact),
        (updatePlayerContacts s cfg cs).playerGrounded = true →
          (updatePlayerContacts s cfg cs).playerClimbing = false ∧
            (updatePlayerContacts s cfg cs).climbAnimGrace = 0) ∧
    (∀ (s : GameState) (cfg : Config) (cs : List Contact) (dt : ℝ)
        (rayHit : Bool),
        (updatePlayerContacts s cfg cs).playerGrounded = true →
          (handleInput (updatePlayerContacts s cfg cs) cfg dt
              rayHit).playerClimbing = false) := by
  have key : ∀ (s : GameState) (cfg : Config) (cs : List Contact),
      (updatePlayerContacts s cfg cs).playerGrounded = true →
        (updatePlayerContacts s cfg cs).playerClimbing = false ∧
          (updatePlayerContacts s cfg cs).climbAnimGrace = 0 := by
    intro s cfg cs h
    simp only [updatePlayerContacts] at *
    split_ifs at h ⊢ with h1
    exact upcLand_grounded_case _ h
  refine ⟨key, fun s cfg cs dt rayHit h => ?_⟩
  exact handleInput_not_climbing_of_grounded _ _ _ _ h (key s cfg cs h).1

/-- Witness for C3: a single flat-ground contact under the default
configuration grounds the player, forcing non-climbing through both the
classifier and the input step. -/
theorem landing_overrides_climbing_witness :
    (updatePlayerContacts { baseState with playerClimbing := true }
        defaultConfig
        [⟨true, false, -0.01, ⟨0, 1, 0⟩, ⟨0, 0.1, 0⟩, ⟨0, 0, 0⟩⟩]).playerGrounded
        = true ∧
      (updatePlayerContacts { baseState with playerClimbing := true }
          defaultConfig
          [⟨true, false, -0.01, ⟨0, 1, 0⟩, ⟨0, 0.1, 0⟩,
            ⟨0, 0, 0⟩⟩]).playerClimbing = false := by
  have hg : (updatePlayerContacts { baseState with playerClimbing := true }
      defaultConfig
      [⟨true, false, -0.01, ⟨0, 1, 0⟩, ⟨0, 0.1, 0⟩, ⟨0, 0, 0⟩⟩]).playerGrounded
      = true := by
    norm_num [updatePlayerContacts, upcRenorm, upcLand, contactStep,
      List.foldl, baseState, defaultConfig, Vec3.zero]
  exact ⟨hg, (landing_overrides_climbing.1 _ _ _ hg).1⟩

/-! ## C7: the jump is edge-triggered, not level-triggered -/

theorem hiTurned_keys (s : GameState) (cfg : Config) (dt : ℝ) :
    (hiTurned s cfg dt).keys = s.keys := by
  simp only [hiTurned]; split_ifs <;> simp

theorem hiTurned_Player (s : GameState) (cfg : Config) (dt : ℝ) :
    (hiTurned s cfg dt).Player = s.Player := by
  simp only [hiTurned]; split_ifs <;> simp

theorem hiTurned_spaceWasDown (s : GameState) (cfg : Config) (dt : ℝ) :
    (hiTurned s cfg dt).spaceWasDown = s.spaceWasDown := by
  simp only [hiTurned]; split_ifs <;> simp

@[simp] theorem hiJump_spaceWasDown (s : GameState) (cfg : Config) (g : Bool) :
    (hiJump s cfg g).spaceWasDown = s.keys.space := rfl

theorem hiJump_Player (s : GameState) (cfg : Config) (g : Bool) :
    (hiJump s cfg g).Player = s.Player := by
  simp only [hiJump]; split_ifs <;> simp

theorem hiCore_spaceWasDown (s : GameState) (cfg : Config) (dt : ℝ)
    (rayHit : Bool) : (hiCore s cfg dt rayHit).spaceWasDown = s.keys.space := by
  simp only [hiCore, hiJump_spaceWasDown]
  split_ifs <;> simp [climbGate_keys, hiTurned_keys]

theorem hiCore_Player (s : GameState) (cfg : Config) (dt : ℝ)
    (rayHit : Bool) : (hiCore s cfg dt rayHit).Player = s.Player := by
  simp only [hiCore, hiJump_Player]
  split_ifs <;> simp [climbGate_Player, hiTurned_Player]

/-- After an input frame with the player present, the `spaceWasDown` latch
holds exactly this frame's Space key state (line 912). -/
theorem handleInput_spaceWasDown (s : GameState) (cfg : Config) (dt : ℝ)
    (rayHit : Bool) (hP : s.Player = true) :
    (handleInput s cfg dt rayHit).spaceWasDown = s.keys.space := by
  rw [handleInput, if_neg (by simp [hP])]
  exact hiCore_spaceWasDown s cfg dt rayHit

theorem handleInput_Player (s : GameState) (cfg : Config) (dt : ℝ)
    (rayHit : Bool) : (handleInput s cfg dt rayHit).Player = s.Player := by
  rw [handleInput]
  split_ifs with h
  · exact hiCore_Player s cfg dt rayHit
  · rfl

/-- One frame's externally-written inputs for an input step: the DOM key
flags, the frame delta and the grounding-ray result. -/
structure FrameCtx where
  keys : Keys
  dt : ℝ
  rayHit : Bool

/-- The jump/wall-jump trigger condition of line 908
(`spaceDown && !state.spaceWasDown`), evaluated on the state at the start of
the frame; `keys` and `spaceWasDown` are untouched between the frame start and
the jump block, so this is the condition the code tests. -/
def jumpFired (s : GameState) : Bool :=
  s.keys.space && !s.spaceWasDown

/-- How many frames of a run of `handleInput` fire the jump trigger; each
frame first takes the externally-written key flags. -/
def jumpCount (cfg : Config) : GameState → List FrameCtx → ℕ
  | _, [] => 0
  | s, f :: fs =>
    (if jumpFired { s with keys := f.keys } then 1 else 0) +
      jumpCount cfg
        (handleInput { s with keys := f.keys } cfg f.dt f.rayHit) fs

theorem jumpCount_zero_of_held (cfg : Config) (fs : List FrameCtx) :
    ∀ s : GameState, s.Player = true → s.spaceWasDown = true →
      (∀ f ∈ fs, f.keys.space = true) → jumpCount cfg s fs = 0 := by
  induction fs with
  | nil => intro s _ _ _; rfl
  | cons f fs ih =>
    intro s hP hW hspace
    have hf : jumpFired { s with keys := f.keys } = false := by
      simp [jumpFired, hW]
    rw [jumpCount, hf]
    simp only [if_false, Bool.false_eq_true, zero_add]
    refine ih _ ?_ ?_ fun g hg => hspace g (List.mem_cons_of_mem f hg)
    · rw [handleInput_Player]; exact hP
    · rw [handleInput_spaceWasDown { s with keys := f.keys } cfg f.dt
        f.rayHit hP]
      exact hspace f (List.mem_cons_self _ _)

/-- C7.  Holding the space key over consecutive frames fires the jump/
wall-jump trigger exactly once, on the first frame (line 908 requires the key
to be down while the previous frame's latch is clear); all later frames of the
held run fire nothing.  Moreover a fired trigger on a grounded, non-climbing
frame performs the jump: the vertical velocity is set to the jump impulse. -/
theorem jump_edge_debounce (cfg : Config) (s0 : GameState) (f : FrameCtx)
    (rest : List FrameCtx) (hP : s0.Player = true)
    (hW : s0.spaceWasDown = false) (hf : f.keys.space = true)
    (hrest : ∀ g ∈ rest, g.keys.space = true) :
    jumpFired { s0 with keys := f.keys } = true ∧
      jumpCount cfg s0 (f :: rest) = 1 ∧
      (∀ s : GameState, s.keys.space = true → s.spaceWasDown = false →
        s.playerClimbing = false →
          (hiJump s cfg true).bodyVel.y = cfg.PLAYER_JUMP_IMPULSE) := by
  have hfired : jumpFired { s0 with keys := f.keys } = true := by
    simp [jumpFired, hW, hf]
  refine ⟨hfired, ?_, ?_⟩
  · rw [jumpCount, hfired]
    have hz : jumpCount cfg
        (handleInput { s0 with keys := f.keys } cfg f.dt f.rayHit) rest = 0 := by
      refine jumpCount_zero_of_held cfg rest _ ?_ ?_ hrest
      · rw [handleInput_Player]; exact hP
      · rw [handleInput_spaceWasDown { s0 with keys := f.keys } cfg f.dt
          f.rayHit hP]
        exact hf
    rw [hz]
    simp
  · intro s hs hw hcl
    simp only [hiJump, hs, hw, hcl]
    norm_num [jump]

/-- Witness for C7: three consecutive frames with Space held from a clear
latch fire the trigger exactly once. -/
theorem jump_edge_debounce_witness :
    jumpFired { baseState with keys := ⟨false, false, false, false, true⟩ }
        = true ∧
      jumpCount defaultConfig baseState
        [⟨⟨false, false, false, false, true⟩, 1/60, false⟩,
          ⟨⟨false, false, false, false, true⟩, 1/60, false⟩,
          ⟨⟨false, false, false, false, true⟩, 1/60, false⟩] = 1 ∧
      (∀ s : GameState, s.keys.space = true → s.spaceWasDown = false →
        s.playerClimbing = false →
          (hiJump s defaultConfig true).bodyVel.y
            = defaultConfig.PLAYER_JUMP_IMPULSE) := by
  exact jump_edge_debounce defaultConfig baseState
    ⟨⟨false, false, false, false, true⟩, 1/60, false⟩
    [⟨⟨false, false, false, false, true⟩, 1/60, false⟩,
      ⟨⟨false, false, false, false, true⟩, 1/60, false⟩]
    rfl rfl rfl (by intro g hg; fin_cases hg <;> rfl)

/-! ## C8: the camera pitch always stays inside the dynamic clamp range -/

theorem clampR_le_right (v lo hi : ℝ) (h : lo ≤ hi) : clampR v lo hi ≤ hi :=
  max_le h (min_le_left _ _)

theorem left_le_clampR (v lo hi : ℝ) : lo ≤ clampR v lo hi :=
  le_max_left _ _

theorem getDynamicMinPitch_le (s : GameState) (cfg : Config)
    (h1 : cfg.CAMERA_MIN_PITCH ≤ cfg.CAMERA_MAX_PITCH)
    (h2 : cfg.CAMERA_MIN_PITCH_BELOW ≤ cfg.CAMERA_MAX_PITCH) :
    getDynamicMinPitch s cfg ≤ cfg.CAMERA_MAX_PITCH := by
  rw [getDynamicMinPitch]
  split_ifs <;> assumption

/-- The pitch invariant of the claim: the camera pitch lies between the
dynamic minimum pitch of the current state and the configured maximum. -/
def pitchInv (s : GameState) (cfg : Config) : Prop :=
  getDynamicMinPitch s cfg ≤ s.cameraPitch ∧
    s.cameraPitch ≤ cfg.CAMERA_MAX_PITCH

/-- A camera-affecting operation: a pointer-drag event or a per-frame
`updateCamera` run. -/
inductive CamOp where
  | pointer (dx dy : ℝ)
  | frame

/-- Apply one camera operation to the state. -/
def applyCamOp (cfg : Config) (s : GameState) : CamOp → GameState
  | .pointer dx dy => onMouseMove s cfg dx dy
  | .frame => updateCamera s cfg

/-- Apply a sequence of camera operations. -/
def applyCamOps (cfg : Config) (s : GameState) (ops : List CamOp) : GameState :=
  ops.foldl (applyCamOp cfg) s

/-- A pointer event while locked establishes the pitch invariant outright. -/
theorem onMouseMove_pitchInv_locked (s : GameState) (cfg : Config)
    (dx dy : ℝ) (h1 : cfg.CAMERA_MIN_PITCH ≤ cfg.CAMERA_MAX_PITCH)
    (h2 : cfg.CAMERA_MIN_PITCH_BELOW ≤ cfg.CAMERA_MAX_PITCH)
    (hL : s.pointerLocked = true) :
    pitchInv (onMouseMove s cfg dx dy) cfg := by
  rw [onMouseMove, if_neg (by simp [hL])]
  have hdm : getDynamicMinPitch
      { s with
        cameraYaw := s.cameraYaw - dx * cfg.MOUSE_YAW_SENSITIVITY
        cameraPitch := clampR (s.cameraPitch - dy * cfg.MOUSE_PITCH_SENSITIVITY)
          (getDynamicMinPitch s cfg) cfg.CAMERA_MAX_PITCH } cfg
      = getDynamicMinPitch s cfg := by
    simp [getDynamicMinPitch]
  simp only [pitchInv]
  rw [hdm]
  exact ⟨left_le_clampR _ _ _,
    clampR_le_right _ _ _ (getDynamicMinPitch_le s cfg h1 h2)⟩

/-- Any pointer event preserves the pitch invariant. -/
theorem onMouseMove_pitchInv (s : GameState) (cfg : Config) (dx dy : ℝ)
    (h1 : cfg.CAMERA_MIN_PITCH ≤ cfg.CAMERA_MAX_PITCH)
    (h2 : cfg.CAMERA_MIN_PITCH_BELOW ≤ cfg.CAMERA_MAX_PITCH)
    (hI : pitchInv s cfg) : pitchInv (onMouseMove s cfg dx dy) cfg := by
  by_cases hL : s.pointerLocked = true
  · exact onMouseMove_pitchInv_locked s cfg dx dy h1 h2 hL
  · rw [onMouseMove, if_pos (by simp [hL])]
    exact hI

/-- A frame's `updateCamera` with the player present establishes the pitch
invariant outright: the height refresh happens before the clamp, and the
final position write leaves pitch and height untouched. -/
theorem updateCamera_pitchInv_present (s : GameState) (cfg : Config)
    (h1 : cfg.CAMERA_MIN_PITCH ≤ cfg.CAMERA_MAX_PITCH)
    (h2 : cfg.CAMERA_MIN_PITCH_BELOW ≤ cfg.CAMERA_MAX_PITCH)
    (hP : s.Player = true) : pitchInv (updateCamera s cfg) cfg := by
  rw [updateCamera, if_neg (by simp [hP])]
  simp only [pitchInv, getDynamicMinPitch]
  split_ifs <;>
    exact ⟨le_max_left _ _, max_le (by assumption) (min_le_left _ _)⟩

/-- Any frame's `updateCamera` preserves the pitch invariant. -/
theorem updateCamera_pitchInv (s : GameState) (cfg : Config)
    (h1 : cfg.CAMERA_MIN_PITCH ≤ cfg.CAMERA_MAX_PITCH)
    (h2 : cfg.CAMERA_MIN_PITCH_BELOW ≤ cfg.CAMERA_MAX_PITCH)
    (hI : pitchInv s cfg) : pitchInv (updateCamera s cfg) cfg := by
  by_cases hP : s.Player = true
  · exact updateCamera_pitchInv_present s cfg h1 h2 hP
  · rw [updateCamera, if_pos (by simp [hP])]
    exact hI

/-- C8.  Provided the two configured minimum pitches lie below the maximum,
the camera pitch is kept inside `[dynamicMinPitch, CAMERA_MAX_PITCH]` — where
the dynamic minimum is `CAMERA_MIN_PITCH_BELOW` when the player is higher
above the ground plane than `CAMERA_BELOW_PLAYER_ENABLE_HEIGHT` and
`CAMERA_MIN_PITCH` otherwise — across every sequence of pointer-drag events
and per-frame camera updates, both of which re-apply the clamp. -/
theorem camera_pitch_clamped (cfg : Config)
    (h1 : cfg.CAMERA_MIN_PITCH ≤ cfg.CAMERA_MAX_PITCH)
    (h2 : cfg.CAMERA_MIN_PITCH_BELOW ≤ cfg.CAMERA_MAX_PITCH) :
    (∀ (s : GameState) (ops : List CamOp),
        pitchInv s cfg → pitchInv (applyCamOps cfg s ops) cfg) ∧
      (∀ s : GameState, s.Player = true →
        pitchInv (updateCamera s cfg) cfg) ∧
      (∀ (s : GameState) (dx dy : ℝ), s.pointerLocked = true →
        pitchInv (onMouseMove s cfg dx dy) cfg) := by
  refine ⟨?_, fun s hP => updateCamera_pitchInv_present s cfg h1 h2 hP,
    fun s dx dy hL => onMouseMove_pitchInv_locked s cfg dx dy h1 h2 hL⟩
  intro s ops
  induction ops generalizing s with
  | nil => exact fun h => h
  | cons op ops ih =>
    intro h
    rw [applyCamOps, List.foldl_cons]
    refine ih _ ?_
    cases op with
    | pointer dx dy => exact onMouseMove_pitchInv _ _ _ _ h1 h2 h
    | frame => exact updateCamera_pitchInv _ _ h1 h2 h

/-- Witness for C8: under the default configuration, a drag followed by two
frame updates keeps the pitch of the baseline state inside the clamp range. -/
theorem camera_pitch_clamped_witness :
    pitchInv (applyCamOps defaultConfig baseState
      [CamOp.pointer 3 (-200), CamOp.frame, CamOp.frame]) defaultConfig := by
  refine (camera_pitch_clamped defaultConfig (by norm_num [defaultConfig])
    (by norm_num [defaultConfig])).1 baseState _ ?_
  constructor <;>
    norm_num [pitchInv, getDynamicMinPitch, baseState, defaultConfig]

/-! ## C9: the in-air animation latch is debounced by an air timer -/

@[simp] theorem playPlayerAction_animInAir (s : GameState) (n : AnimName) :
    (playPlayerAction s n).animInAir = s.animInAir := by
  simp only [playPlayerAction]; split_ifs <;> rfl

@[simp] theorem playPlayerAction_animAirTimer (s : GameState) (n : AnimName) :
    (playPlayerAction s n).animAirTimer = s.animAirTimer := by
  simp only [playPlayerAction]; split_ifs <;> rfl

@[simp] theorem applyMoveAnimDirection_animInAir (s : GameState) (d : ℝ)
    (f : Bool) : (applyMoveAnimDirection s d f).animInAir = s.animInAir := by
  simp only [applyMoveAnimDirection]; split_ifs <;> rfl

@[simp] theorem applyMoveAnimDirection_animAirTimer (s : GameState) (d : ℝ)
    (f : Bool) :
    (applyMoveAnimDirection s d f).animAirTimer = s.animAirTimer := by
  simp only [applyMoveAnimDirection]; split_ifs <;> rfl

@[simp] theorem applyMoveAnimDirection_playerCurrentState (s : GameState)
    (d : ℝ) (f : Bool) :
    (applyMoveAnimDirection s d f).playerCurrentState =
      s.playerCurrentState := by
  simp only [applyMoveAnimDirection]; split_ifs <;> rfl

/-- C9.  On frames that are neither climbing nor inside the climb grace
window: a grounded frame resets the air latch and the air timer; an airborne
frame adds `dt` to the air timer, and the latch ends up on exactly when it
already was on or the accumulated air time has reached `ANIM_AIR_MIN_TIME`;
in particular a single airborne frame shorter than the threshold leaves the
latch off, and if the player was idle at sub-threshold speed the animation
state also stays `idle`. -/
theorem animSelect_animInAir (s : GameState) (cfg : Config) :
    (animSelect s cfg).animInAir = s.animInAir := by
  simp only [animSelect]; split_ifs <;> simp

theorem animSelect_animAirTimer (s : GameState) (cfg : Config) :
    (animSelect s cfg).animAirTimer = s.animAirTimer := by
  simp only [animSelect]; split_ifs <;> simp

/-- When the latch is off, the speed is at or below the move threshold and the
current clip is `idle`, the selector leaves the animation state at `idle`. -/
theorem animSelect_idle (s : GameState) (cfg : Config)
    (hA : s.animInAir = false) (hcs : s.playerCurrentState = AnimName.idle)
    (hsp : Real.sqrt (s.bodyVel.x * s.bodyVel.x + s.bodyVel.z * s.bodyVel.z)
      ≤ cfg.MOVE_SPEED_THRESHOLD) :
    (animSelect s cfg).playerCurrentState = AnimName.idle := by
  simp only [animSelect, hA, Bool.false_eq_true, if_false]
  rw [if_neg (not_lt.mpr hsp)]
  split_ifs <;> simp_all

/-- C9.  On frames that are neither climbing nor inside the climb grace
window: a grounded frame resets the air latch and the air timer; an airborne
frame adds `dt` to the air timer, and the latch ends up on exactly when it
already was on or the accumulated air time has reached `ANIM_AIR_MIN_TIME`;
in particular a single airborne frame shorter than the threshold leaves the
latch off, and if the player was idle at sub-threshold speed the animation
state also stays `idle`. -/
theorem anim_air_latch (s : GameState) (cfg : Config) (dt : ℝ) (rayHit : Bool)
    (hP : s.Player = true) (hM : s.playerMixer = true)
    (hC : s.playerClimbing = false) (hG : ¬s.climbAnimGrace > 0) :
    (isGrounded s rayHit = true →
        (updatePlayerAnimationState s cfg dt rayHit).animInAir = false ∧
          (updatePlayerAnimationState s cfg dt rayHit).animAirTimer = 0) ∧
      (isGrounded s rayHit = false →
        (updatePlayerAnimationState s cfg dt rayHit).animAirTimer =
            s.animAirTimer + dt ∧
          ((updatePlayerAnimationState s cfg dt rayHit).animInAir = true ↔
            (s.animInAir = true ∨
              s.animAirTimer + dt ≥ cfg.ANIM_AIR_MIN_TIME))) ∧
      (isGrounded s rayHit = false → s.animInAir = false →
        s.animAirTimer + dt < cfg.ANIM_AIR_MIN_TIME →
          (updatePlayerAnimationState s cfg dt rayHit).animInAir = false ∧
            (s.playerCurrentState = AnimName.idle →
              Real.sqrt (s.bodyVel.x * s.bodyVel.x + s.bodyVel.z * s.bodyVel.z)
                  ≤ cfg.MOVE_SPEED_THRESHOLD →
                (updatePlayerAnimationState s cfg dt
                    rayHit).playerCurrentState = AnimName.idle)) := by
  rw [updatePlayerAnimationState, if_neg (by simp [hP, hM]),
    if_neg (by simp [hC, hG])]
  refine ⟨fun hg => ?_, fun hg => ?_, fun hg hA hT => ?_⟩
  · rw [animSelect_animInAir, animSelect_animAirTimer, animAirGate, if_pos hg]
    exact ⟨rfl, rfl⟩
  · rw [animSelect_animInAir, animSelect_animAirTimer, animAirGate,
      if_neg (by simp [hg])]
    dsimp only
    refine ⟨rfl, ?_⟩
    split_ifs with h
    · simp [h.2]
    · by_cases hA : s.animInAir = true
      · simp [hA]
      · simp only [hA, Bool.false_eq_true, false_iff, false_or]
        simp only [hA, Bool.not_eq_true, not_and, true_and,
          Bool.false_eq_true] at h
        intro hT
        exact absurd hT (by simpa using h)
  · have hgate : animAirGate s cfg dt rayHit =
        { s with
          animAirTimer := s.animAirTimer + dt
          animInAir := s.animInAir } := by
      rw [animAirGate, if_neg (by simp [hg])]
      dsimp only
      rw [if_neg (by
        rw [hA]
        simp only [Bool.false_eq_true, not_false_iff, true_and, ge_iff_le,
          not_le]
        linarith)]
    rw [hgate]
    refine ⟨by rw [animSelect_animInAir, hA], fun hcs hsp => ?_⟩
    exact animSelect_idle _ cfg hA hcs hsp

/-- Witness for C9: the idle baseline state leaving the ground for one frame
of 1/60 s with the 0.1 s default threshold keeps the latch off, advances the
timer to 1/60, and keeps the `idle` animation state. -/
theorem anim_air_latch_witness :
    (updatePlayerAnimationState baseState defaultConfig (1/60)
        false).animInAir = false ∧
      (updatePlayerAnimationState baseState defaultConfig (1/60)
          false).playerCurrentState = AnimName.idle := by
  have h := (anim_air_latch baseState defaultConfig (1/60) false rfl rfl rfl
    (by norm_num [baseState])).2.2
    (by norm_num [isGrounded, baseState]) rfl
    (by norm_num [baseState, defaultConfig])
  refine ⟨h.1, h.2 rfl ?_⟩
  norm_num [baseState, defaultConfig, Vec3.zero]

/-! ## C4: the written-back horizontal speed never exceeds the speed cap -/

/-- The horizontal speed of a velocity vector,
`Math.sqrt(v.x*v.x + v.z*v.z)`. -/
def horizSpeed (v : Vec3) : ℝ := Real.sqrt (v.x * v.x + v.z * v.z)

theorem Vec3.length_le_length (a b : Vec3) (h : a.normSq ≤ b.normSq) :
    a.length ≤ b.length :=
  Real.sqrt_le_sqrt h

theorem horizSpeed_le_length (v : Vec3) : horizSpeed v ≤ v.length := by
  apply Real.sqrt_le_sqrt
  have := mul_self_nonneg v.y
  simp only [Vec3.normSq]
  linarith

/-- The speed clamp of line 1020 caps the length at `maxSpeed`. -/
theorem clamp_length_le (w : Vec3) (M : ℝ) (hM : 0 ≤ M) :
    (if w.length > M then w.smul (M / w.length) else w).length ≤ M := by
  by_cases h : w.length > M
  · rw [if_pos h, Vec3.length_smul]
    have hw : 0 < w.length := lt_of_le_of_lt hM h
    rw [abs_of_nonneg (div_nonneg hM hw.le), div_mul_cancel₀ _ (ne_of_gt hw)]
  · rw [if_neg h]
    exact not_lt.mp h

/-- The into-wall re-strip of lines 1025-1026 never lengthens the velocity as
long as the wall normal's squared length is at most 2. -/
theorem strip_length_le (v n : Vec3) (hn : n.normSq ≤ 2) :
    (if v.dot n > 0 then v.addScaled n (-(v.dot n)) else v).length
      ≤ v.length := by
  by_cases h : v.dot n > 0
  · rw [if_pos h]
    apply Vec3.length_le_length
    rw [Vec3.normSq_strip]
    nlinarith [sq_nonneg (v.dot n)]
  · rw [if_neg h]

/-- The write-back tail of `applyCharacterMovement` leaves the horizontal
speed at most `PLAYER_MAX_SPEED`, whatever velocity the earlier phases
produced. -/
theorem amFinish_horiz_le (s : GameState) (cfg : Config) (lv : Vec3)
    (W : Prop) (w : Vec3) (hM : 0 ≤ cfg.PLAYER_MAX_SPEED)
    (hn : s.playerWallNormal.normSq ≤ 2) :
    horizSpeed (amFinish s cfg lv W w).bodyVel ≤ cfg.PLAYER_MAX_SPEED := by
  simp only [amFinish]
  set v2 := if w.length > cfg.PLAYER_MAX_SPEED then
      w.smul (cfg.PLAYER_MAX_SPEED / w.length) else w with hv2
  have h2 : v2.length ≤ cfg.PLAYER_MAX_SPEED := clamp_length_le w _ hM
  set v3 := if W ∧ s.playerWallNormal.normSq > 1e-6 then
      (if v2.dot s.playerWallNormal > 0 then
        v2.addScaled s.playerWallNormal (-(v2.dot s.playerWallNormal))
      else v2)
    else v2 with hv3
  have h3 : v3.length ≤ v2.length := by
    rw [hv3]
    by_cases hW : W ∧ s.playerWallNormal.normSq > 1e-6
    · rw [if_pos hW]
      exact strip_length_le v2 s.playerWallNormal hn
    · rw [if_neg hW]
  calc horizSpeed ⟨v3.x, _, v3.z⟩ = horizSpeed v3 := rfl
    _ ≤ v3.length := horizSpeed_le_length v3
    _ ≤ v2.length := h3
    _ ≤ cfg.PLAYER_MAX_SPEED := h2

theorem contactStep_onWall_mono (cfg : Config) (b : ℝ) (a : GameState)
    (c : Contact) (h : a.playerOnWall = true) :
    (contactStep cfg b a c).playerOnWall = true := by
  simp only [contactStep]
  split_ifs <;> simp_all

theorem foldl_contactStep_onWall_mono (cfg : Config) (b : ℝ)
    (cs : List Contact) :
    ∀ a : GameState, a.playerOnWall = true →
      (cs.foldl (contactStep cfg b) a).playerOnWall = true := by
  induction cs with
  | nil => exact fun a h => h
  | cons c cs ih =>
    intro a h
    rw [List.foldl_cons]
    exact ih _ (contactStep_onWall_mono cfg b a c h)

theorem contactStep_wallNormal_of_not_onWall (cfg : Config) (b : ℝ)
    (a : GameState) (c : Contact)
    (h : (contactStep cfg b a c).playerOnWall = false) :
    (contactStep cfg b a c).playerWallNormal = a.playerWallNormal := by
  simp only [contactStep] at h ⊢
  split_ifs at h ⊢ <;> simp_all

theorem foldl_contactStep_wallNormal_of_not_onWall (cfg : Config) (b : ℝ)
    (cs : List Contact) :
    ∀ a : GameState, (cs.foldl (contactStep cfg b) a).playerOnWall = false →
      (cs.foldl (contactStep cfg b) a).playerWallNormal =
        a.playerWallNormal := by
  induction cs with
  | nil => intro a _; rfl
  | cons c cs ih =>
    intro a h
    rw [List.foldl_cons] at h ⊢
    have hstep : (contactStep cfg b a c).playerOnWall = false := by
      by_contra hcon
      have ht : (contactStep cfg b a c).playerOnWall = true := by
        revert hcon; cases (contactStep cfg b a c).playerOnWall <;> simp
      rw [foldl_contactStep_onWall_mono cfg b cs _ ht] at h
      exact absurd h (by simp)
    rw [ih _ h, contactStep_wallNormal_of_not_onWall cfg b a c hstep]

/-- Squared length of the renormalized vector is one. -/
theorem Vec3.normSq_normalized (w : Vec3) (h : w.length ≠ 0) :
    (w.smul (1 / w.length)).normSq = 1 := by
  have hnn : w.normSq ≠ 0 := by
    intro h0
    exact h (by rw [length, h0, Real.sqrt_zero])
  rw [normSq_smul, div_pow, one_pow, length, Real.sq_sqrt (normSq_nonneg w)]
  field_simp

/-- The landing override does not touch the wall normal. -/
theorem upcLand_playerWallNormal (x : GameState) :
    (upcLand x).playerWallNormal = x.playerWallNormal := by
  simp only [upcLand]; split_ifs <;> rfl

/-- After the renormalize-and-land finish, the wall normal has squared length
at most one, provided a wall-less input still carries the zero accumulator. -/
theorem renorm_normSq_le (w : Vec3) :
    (if w.length > 1e-6 then w.smul (1 / w.length) else w).normSq ≤ 1 := by
  by_cases hl : w.length > 1e-6
  · rw [if_pos hl, Vec3.normSq_normalized w
      (by intro h0; rw [h0] at hl; norm_num at hl)]
  · rw [if_neg hl]
    have h0 := Vec3.length_nonneg w
    have h1 := not_lt.mp hl
    have h2 : w.length ^ 2 = w.normSq := Real.sq_sqrt (Vec3.normSq_nonneg w)
    nlinarith

theorem upcFinish_normSq_le (F : GameState)
    (hz : F.playerOnWall = false → F.playerWallNormal = Vec3.zero) :
    (upcLand (upcRenorm F)).playerWallNormal.normSq ≤ 1 := by
  rw [upcLand_playerWallNormal]
  by_cases hW : F.playerOnWall = true
  · simp only [upcRenorm, hW, if_true]
    exact renorm_normSq_le ⟨F.playerWallNormal.x, 0, F.playerWallNormal.z⟩
  · rw [upcRenorm, if_neg (by simpa using hW), hz (by simpa using hW)]
    norm_num [Vec3.zero, Vec3.normSq]

/-- The classifier always hands later stages a wall normal of squared length
at most one: zero when no wall contact, exactly one after renormalization, and
a residue of squared length at most `1e-12` when the accumulator was too short
to renormalize. -/
theorem updatePlayerContacts_wallNormal_small (s : GameState) (cfg : Config)
    (cs : List Contact) :
    (updatePlayerContacts s cfg cs).playerWallNormal.normSq ≤ 1 := by
  simp only [updatePlayerContacts]
  split_ifs with h1
  · apply upcFinish_normSq_le
    intro hW
    rw [foldl_contactStep_wallNormal_of_not_onWall _ _ _ _ hW]
  · norm_num [Vec3.zero, Vec3.normSq]

/-- C4.  The movement integrator's write-back keeps the horizontal speed at
or below `PLAYER_MAX_SPEED` for every input state whose wall normal the
contact classifier could have produced (squared length at most 2 — the
classifier in fact guarantees at most 1, first conjunct), including after the
post-clamp wall-slide re-strip, for any nonnegative configured cap. -/
theorem speed_cap :
    (∀ (s : GameState) (cfg : Config) (cs : List Contact),
        (updatePlayerContacts s cfg cs).playerWallNormal.normSq ≤ 1) ∧
      (∀ (s : GameState) (cfg : Config) (ma0 dt : ℝ) (rayHit : Bool),
        0 ≤ cfg.PLAYER_MAX_SPEED → s.playerWallNormal.normSq ≤ 2 →
          horizSpeed (applyCharacterMovement s cfg ma0 dt rayHit).bodyVel
            ≤ cfg.PLAYER_MAX_SPEED) := by
  refine ⟨updatePlayerContacts_wallNormal_small, ?_⟩
  intro s cfg ma0 dt rayHit hM hn
  rw [applyCharacterMovement]
  exact amFinish_horiz_le s cfg s.bodyVel _ _ hM hn

/-- Witness for C4: a state moving at 100 units/s is written back at no more
than the default 15 units/s cap. -/
theorem speed_cap_witness :
    horizSpeed (applyCharacterMovement
        { baseState with bodyVel := ⟨100, -5, 0⟩ } defaultConfig 1 (1/60)
        false).bodyVel ≤ defaultConfig.PLAYER_MAX_SPEED :=
  speed_cap.2 { baseState with bodyVel := ⟨100, -5, 0⟩ } defaultConfig 1
    (1/60) false (by norm_num [defaultConfig])
    (by norm_num [baseState, Vec3.zero, Vec3.normSq])

/-! ## C5: the wall-slide fall floor and vertical pass-through -/

/-- The vertical component written back by the tail of
`applyCharacterMovement`: floored at the configured fall cap exactly when the
wall-slide branch (wall-sliding AND wall-normal squared length above `1e-6`)
is taken, and passed through unchanged otherwise. -/
theorem amFinish_vy (s : GameState) (cfg : Config) (lv : Vec3) (W : Prop)
    (w : Vec3) :
    ((W ∧ s.playerWallNormal.normSq > 1e-6) →
        (amFinish s cfg lv W w).bodyVel.y =
          max lv.y cfg.WALL_SLIDE_MAX_FALL_SPEED) ∧
      (¬(W ∧ s.playerWallNormal.normSq > 1e-6) →
        (amFinish s cfg lv W w).bodyVel.y = lv.y) := by
  constructor <;> intro h
  · simp only [amFinish, if_pos h]
    by_cases hy : lv.y < cfg.WALL_SLIDE_MAX_FALL_SPEED
    · rw [if_pos hy, max_eq_right hy.le]
    · rw [if_neg hy, max_eq_left (not_lt.mp hy)]
  · simp only [amFinish, if_neg h]

/-- In the wall-slide branch with a unit horizontal wall normal, the
written-back horizontal velocity has no into-wall component left. -/
theorem amFinish_strip (s : GameState) (cfg : Config) (lv : Vec3) (W : Prop)
    (w : Vec3) (h : W ∧ s.playerWallNormal.normSq > 1e-6)
    (h1 : s.playerWallNormal.normSq = 1) (hy : s.playerWallNormal.y = 0) :
    (amFinish s cfg lv W w).bodyVel.x * s.playerWallNormal.x +
        (amFinish s cfg lv W w).bodyVel.z * s.playerWallNormal.z ≤ 0 := by
  simp only [amFinish, if_pos h]
  set n := s.playerWallNormal with hn
  set v2 := if w.length > cfg.PLAYER_MAX_SPEED then
      w.smul (cfg.PLAYER_MAX_SPEED / w.length) else w with hv2
  have hS : n.x * n.x + n.z * n.z = 1 := by
    have := h1
    rw [Vec3.normSq] at this
    rw [hy] at this
    linarith
  by_cases hd : v2.dot n > 0
  · rw [if_pos hd]
    simp only [Vec3.addScaled, Vec3.add, Vec3.smul, Vec3.dot]
    apply le_of_eq
    linear_combination
      (-(v2.x * n.x + v2.y * n.y + v2.z * n.z)) * hS + (-v2.y) * hy
  · rw [if_neg hd]
    have hle := not_lt.mp hd
    rw [Vec3.dot, hy] at hle
    linarith

/-- C5 (amended).  The movement integrator passes the physics-step vertical
velocity through unchanged, except when wall-sliding with a wall normal of
squared length above `1e-6` (rather than merely nonzero): then the vertical
velocity written back is the old one floored at `WALL_SLIDE_MAX_FALL_SPEED`
— so never below it — and with a unit horizontal wall normal the written-back
horizontal velocity carries no into-wall component. -/
theorem wall_slide_fall_cap (s : GameState) (cfg : Config) (ma0 dt : ℝ)
    (rayHit : Bool) :
    ((amWallSliding s (amMoveAxis s cfg ma0 rayHit) rayHit ∧
          s.playerWallNormal.normSq > 1e-6) →
        (applyCharacterMovement s cfg ma0 dt rayHit).bodyVel.y =
            max s.bodyVel.y cfg.WALL_SLIDE_MAX_FALL_SPEED ∧
          cfg.WALL_SLIDE_MAX_FALL_SPEED ≤
            (applyCharacterMovement s cfg ma0 dt rayHit).bodyVel.y ∧
          (s.playerWallNormal.normSq = 1 → s.playerWallNormal.y = 0 →
            (applyCharacterMovement s cfg ma0 dt rayHit).bodyVel.x *
                s.playerWallNormal.x +
              (applyCharacterMovement s cfg ma0 dt rayHit).bodyVel.z *
                s.playerWallNormal.z ≤ 0)) ∧
      (¬(amWallSliding s (amMoveAxis s cfg ma0 rayHit) rayHit ∧
          s.playerWallNormal.normSq > 1e-6) →
        (applyCharacterMovement s cfg ma0 dt rayHit).bodyVel.y =
          s.bodyVel.y) := by
  rw [applyCharacterMovement]
  constructor
  · intro h
    refine ⟨(amFinish_vy s cfg s.bodyVel _ _).1 h, ?_, ?_⟩
    · rw [(amFinish_vy s cfg s.bodyVel _ _).1 h]
      exact le_max_right _ _
    · intro h1 hy
      exact amFinish_strip s cfg s.bodyVel _ _ h h1 hy
  · exact (amFinish_vy s cfg s.bodyVel _ _).2

/-- A wall-sliding state under a unit wall normal, falling at 100 units/s. -/
def slideState : GameState := { baseState with
  playerOnWall := true
  playerWallNormal := ⟨1, 0, 0⟩
  bodyVel := ⟨0, -100, 0⟩ }

/-- Witness for C5: on `slideState` the written-back vertical velocity is the
fall floored at the default cap of -8, not -100. -/
theorem wall_slide_fall_cap_witness :
    (applyCharacterMovement slideState defaultConfig 1 1 false).bodyVel.y =
        max slideState.bodyVel.y defaultConfig.WALL_SLIDE_MAX_FALL_SPEED ∧
      defaultConfig.WALL_SLIDE_MAX_FALL_SPEED ≤
        (applyCharacterMovement slideState defaultConfig 1 1 false).bodyVel.y := by
  have h := (wall_slide_fall_cap slideState defaultConfig 1 1 false).1 ?_
  · exact ⟨h.1, h.2.1⟩
  · constructor
    · refine ⟨?_, rfl, by
        norm_num [amMoveAxis, isGrounded, slideState, baseState,
          defaultConfig]⟩
      norm_num [isGrounded, amMoveAxis, slideState, baseState, defaultConfig]
    · norm_num [slideState, baseState, Vec3.normSq]

/-- A state carrying the nonzero but sub-`1e-6` wall normal that two
near-opposite wall contacts leave in the accumulator (see
`tiny_wall_normal_realizable`), falling at 100 units/s. -/
def tinyWallState : GameState := { baseState with
  playerOnWall := true
  playerWallNormal := ⟨4 / 100000001, 0, 0⟩
  bodyVel := ⟨0, -100, 0⟩ }

/-- A configuration identical to the default except that strafe damping is
off and the speed cap is zero, keeping the counterexample arithmetic small. -/
def cxConfig : Config := { defaultConfig with
  PLAYER_USE_STRAFE_DAMP := false
  PLAYER_MAX_SPEED := 0 }

/-- Counterexample for C5 as stated: all four of the claim's wall-slide
conditions hold (airborne, on wall, nonzero move axis, nonzero wall normal),
yet the written-back vertical velocity stays at -100, strictly below the
fall cap of -8 — the code additionally requires the wall normal's squared
length to exceed `1e-6` before flooring. -/
theorem wall_slide_fall_cap_cx :
    tinyWallState.playerGrounded = false ∧
      tinyWallState.playerOnWall = true ∧
      amMoveAxis tinyWallState cxConfig 1 false ≠ 0 ∧
      tinyWallState.playerWallNormal ≠ Vec3.zero ∧
      (applyCharacterMovement tinyWallState cxConfig 1 1 false).bodyVel.y =
        -100 ∧
      (applyCharacterMovement tinyWallState cxConfig 1 1 false).bodyVel.y <
        cxConfig.WALL_SLIDE_MAX_FALL_SPEED := by
  refine ⟨rfl, rfl, ?_, ?_, ?_, ?_⟩
  · norm_num [amMoveAxis, isGrounded, tinyWallState, baseState, cxConfig,
      defaultConfig]
  · intro hzero
    have := congrArg Vec3.x hzero
    norm_num [tinyWallState, baseState, Vec3.zero] at this
  · norm_num [applyCharacterMovement, amMoveAxis, amWallSliding, amPreVel,
      amStepVel, amFinish, isGrounded, getPlayerBasis, Vec3.normalize,
      Vec3.length, Vec3.normSq, Vec3.smul, Vec3.add, Vec3.sub, Vec3.dot,
      Vec3.zero, Vec3.addScaled, Vec3.setY0, tinyWallState, baseState,
      cxConfig, defaultConfig, Real.sqrt_zero, Real.sqrt_one]
  · norm_num [applyCharacterMovement, amMoveAxis, amWallSliding, amPreVel,
      amStepVel, amFinish, isGrounded, getPlayerBasis, Vec3.normalize,
      Vec3.length, Vec3.normSq, Vec3.smul, Vec3.add, Vec3.sub, Vec3.dot,
      Vec3.zero, Vec3.addScaled, Vec3.setY0, tinyWallState, baseState,
      cxConfig, defaultConfig, Real.sqrt_zero, Real.sqrt_one]

/-- Two pairs of near-opposite wall contacts leave exactly the accumulator
`(4/100000001, 0, 0)` of `tinyWallState` in the classifier: each contact's
horizontal normal is unit length, the sum nearly cancels, and at squared
length below `1e-6` the final renormalization is skipped, so this nonzero
sub-threshold wall normal is a real classifier output. -/
theorem tiny_wall_normal_realizable :
    (updatePlayerContacts baseState defaultConfig
        [⟨true, false, -1/100, ⟨1, 0, 0⟩, ⟨0, 5, 0⟩, ⟨0, 0, 0⟩⟩,
          ⟨true, false, -1/100, ⟨1, 0, 0⟩, ⟨0, 5, 0⟩, ⟨0, 0, 0⟩⟩,
          ⟨true, false, -1/100,
            ⟨-(99999999/100000001), 0, -(20000/100000001)⟩,
            ⟨0, 5, 0⟩, ⟨0, 0, 0⟩⟩,
          ⟨true, false, -1/100,
            ⟨-(99999999/100000001), 0, 20000/100000001⟩,
            ⟨0, 5, 0⟩, ⟨0, 0, 0⟩⟩]).playerOnWall = true ∧
      (updatePlayerContacts baseState defaultConfig
        [⟨true, false, -1/100, ⟨1, 0, 0⟩, ⟨0, 5, 0⟩, ⟨0, 0, 0⟩⟩,
          ⟨true, false, -1/100, ⟨1, 0, 0⟩, ⟨0, 5, 0⟩, ⟨0, 0, 0⟩⟩,
          ⟨true, false, -1/100,
            ⟨-(99999999/100000001), 0, -(20000/100000001)⟩,
            ⟨0, 5, 0⟩, ⟨0, 0, 0⟩⟩,
          ⟨true, false, -1/100,
            ⟨-(99999999/100000001), 0, 20000/100000001⟩,
            ⟨0, 5, 0⟩, ⟨0, 0, 0⟩⟩]).playerWallNormal =
        tinyWallState.playerWallNormal := by
  have h16 : Real.sqrt 16 = 4 := by
    rw [show (16:ℝ) = 4 ^ 2 by norm_num]
    exact Real.sqrt_sq (by norm_num)
  have hN : Real.sqrt 10000000200000001 = 100000001 := by
    rw [show (10000000200000001:ℝ) = 100000001 ^ 2 by norm_num]
    exact Real.sqrt_sq (by norm_num)
  constructor <;>
    norm_num [updatePlayerContacts, upcRenorm, upcLand, contactStep,
      List.foldl, baseState, defaultConfig, tinyWallState, Vec3.zero,
      Vec3.length, Vec3.normSq, Vec3.smul, Real.sqrt_one, Real.sqrt_zero,
      h16, hN]

/-! ## C2: the compared wall confidence is the post-renormalization length -/

theorem upcRenorm_playerOnWall (s : GameState) :
    (upcRenorm s).playerOnWall = s.playerOnWall := by
  simp only [upcRenorm]; split_ifs <;> rfl

theorem upcLand_playerOnWall (s : GameState) :
    (upcLand s).playerOnWall = s.playerOnWall := by
  simp only [upcLand]; split_ifs <;> rfl

/-- Modelled from the spec: the wall-confidence magnitude the claim says is
compared against `wallClimbMinNormal` — the magnitude of the accumulated
wall-contact normal of this frame's classifier run, taken BEFORE the final
renormalization step (the accumulation loop of lines 1064-1101 without the
lines 1104-1108 renormalization). -/
def preRenormWallMagnitude (s : GameState) (cfg : Config)
    (contacts : List Contact) : ℝ :=
  let s0 := { s with
    playerGrounded := false
    playerOnWall := false
    playerWallNormal := Vec3.zero }
  (contacts.foldl
    (contactStep cfg
      (s0.bodyPos.y - cfg.PLAYER_HEIGHT / 2 +
        cfg.PLAYER_HEIGHT * cfg.GROUND_BAND_FRACTION))
    s0).playerWallNormal.length

/-- C2 (amended).  The wall-confidence value `handleInput` compares against
`WALL_CLIMB_MIN_NORMAL` (line 884) is the length of the wall normal the
classifier stored, i.e. AFTER its final renormalization: whenever any wall
contact occurred it is either exactly 1 (the accumulator exceeded `1e-6` and
was renormalized) or the accumulator's sub-`1e-6` residual magnitude — not
the pre-renormalization accumulator magnitude the claim describes. -/
theorem renorm_length_cases (w : Vec3) :
    (if w.length > 1e-6 then w.smul (1 / w.length) else w).length = 1 ∨
      (if w.length > 1e-6 then w.smul (1 / w.length) else w).length ≤ 1e-6 := by
  by_cases hl : w.length > 1e-6
  · left
    rw [if_pos hl, Vec3.length, Vec3.normSq_normalized w
      (by intro h0; rw [h0] at hl; norm_num at hl), Real.sqrt_one]
  · right
    rw [if_neg hl]
    exact not_lt.mp hl

theorem upcFinish_length (F : GameState) (h : F.playerOnWall = true) :
    (upcLand (upcRenorm F)).playerWallNormal.length = 1 ∨
      (upcLand (upcRenorm F)).playerWallNormal.length ≤ 1e-6 := by
  rw [upcLand_playerWallNormal]
  simp only [upcRenorm, h, if_true]
  exact renorm_length_cases ⟨F.playerWallNormal.x, 0, F.playerWallNormal.z⟩

/-- C2 (amended).  The wall-confidence value `handleInput` compares against
`WALL_CLIMB_MIN_NORMAL` (line 884) is the length of the wall normal the
classifier stored, i.e. AFTER its final renormalization: whenever any wall
contact occurred it is either exactly 1 (the accumulator exceeded `1e-6` and
was renormalized) or the accumulator's sub-`1e-6` residual magnitude — not
the pre-renormalization accumulator magnitude the claim describes. -/
theorem wall_confidence_post_renorm (s : GameState) (cfg : Config)
    (cs : List Contact)
    (h : (updatePlayerContacts s cfg cs).playerOnWall = true) :
    (updatePlayerContacts s cfg cs).playerWallNormal.length = 1 ∨
      (updatePlayerContacts s cfg cs).playerWallNormal.length ≤ 1e-6 := by
  simp only [updatePlayerContacts] at h ⊢
  split_ifs at h ⊢ with h1
  apply upcFinish_length
  rw [← upcRenorm_playerOnWall, ← upcLand_playerOnWall]
  exact h

/-- The three-contact evaluation shared by the C2 counterexample and witness:
unit horizontal wall directions `(3/5, 4/5)`, `(3/5, -4/5)` and `(-1, 0)`
accumulate to `(1/5, 0, 0)`, which renormalizes to the unit normal
`(1, 0, 0)`. -/
theorem cx2_eval :
    (updatePlayerContacts baseState defaultConfig
        [⟨true, false, -1/100, ⟨3/5, 0, 4/5⟩, ⟨0, 5, 0⟩, ⟨0, 0, 0⟩⟩,
          ⟨true, false, -1/100, ⟨3/5, 0, -(4/5)⟩, ⟨0, 5, 0⟩, ⟨0, 0, 0⟩⟩,
          ⟨true, false, -1/100, ⟨-1, 0, 0⟩, ⟨0, 5, 0⟩,
            ⟨0, 0, 0⟩⟩]).playerOnWall = true ∧
      (updatePlayerContacts baseState defaultConfig
        [⟨true, false, -1/100, ⟨3/5, 0, 4/5⟩, ⟨0, 5, 0⟩, ⟨0, 0, 0⟩⟩,
          ⟨true, false, -1/100, ⟨3/5, 0, -(4/5)⟩, ⟨0, 5, 0⟩, ⟨0, 0, 0⟩⟩,
          ⟨true, false, -1/100, ⟨-1, 0, 0⟩, ⟨0, 5, 0⟩,
            ⟨0, 0, 0⟩⟩]).playerWallNormal = ⟨1, 0, 0⟩ ∧
      preRenormWallMagnitude baseState defaultConfig
        [⟨true, false, -1/100, ⟨3/5, 0, 4/5⟩, ⟨0, 5, 0⟩, ⟨0, 0, 0⟩⟩,
          ⟨true, false, -1/100, ⟨3/5, 0, -(4/5)⟩, ⟨0, 5, 0⟩, ⟨0, 0, 0⟩⟩,
          ⟨true, false, -1/100, ⟨-1, 0, 0⟩, ⟨0, 5, 0⟩, ⟨0, 0, 0⟩⟩] =
        1/5 := by
  have h5 : Real.sqrt (1/25) = 1/5 := by
    rw [show (1/25:ℝ) = (1/5) ^ 2 by norm_num]
    exact Real.sqrt_sq (by norm_num)
  refine ⟨?_, ?_, ?_⟩ <;>
    norm_num [updatePlayerContacts, preRenormWallMagnitude, upcRenorm,
      upcLand, contactStep, List.foldl, baseState, defaultConfig, Vec3.zero,
      Vec3.length, Vec3.normSq, Vec3.smul, Real.sqrt_one, Real.sqrt_zero, h5]

/-- A non-climbing, airborne state with forward input, elapsed cooldown and a
passing wall-confidence test enters climbing at the gate. -/
theorem climbGate_enters (s : GameState) (cfg : Config) (ma : ℝ)
    (hc : s.playerClimbing = false) (hma : ma > 0) (ht : s.climbExitTimer ≤ 0)
    (hw : s.playerOnWall = true)
    (hl : s.playerWallNormal.length ≥ cfg.WALL_CLIMB_MIN_NORMAL) :
    (climbGate s cfg false ma).playerClimbing = true := by
  simp only [climbGate, hc, Bool.false_eq_true, if_false]
  rw [if_pos ⟨⟨by simp, hma, ht⟩, by simp [hw], hl⟩]

/-- Counterexample for C2 as stated: three simultaneous wall contacts whose
accumulator has magnitude 1/5 — BELOW the default 0.5 threshold, so under the
claim's reading the wall-confidence gate must fail — while the value the code
actually compares (the renormalized stored normal's length) is 1, the gate
passes, and the climb state machine does enter Climbing. -/
theorem wall_confidence_cx :
    preRenormWallMagnitude baseState defaultConfig
        [⟨true, false, -1/100, ⟨3/5, 0, 4/5⟩, ⟨0, 5, 0⟩, ⟨0, 0, 0⟩⟩,
          ⟨true, false, -1/100, ⟨3/5, 0, -(4/5)⟩, ⟨0, 5, 0⟩, ⟨0, 0, 0⟩⟩,
          ⟨true, false, -1/100, ⟨-1, 0, 0⟩, ⟨0, 5, 0⟩, ⟨0, 0, 0⟩⟩] <
        defaultConfig.WALL_CLIMB_MIN_NORMAL ∧
      (updatePlayerContacts baseState defaultConfig
        [⟨true, false, -1/100, ⟨3/5, 0, 4/5⟩, ⟨0, 5, 0⟩, ⟨0, 0, 0⟩⟩,
          ⟨true, false, -1/100, ⟨3/5, 0, -(4/5)⟩, ⟨0, 5, 0⟩, ⟨0, 0, 0⟩⟩,
          ⟨true, false, -1/100, ⟨-1, 0, 0⟩, ⟨0, 5, 0⟩,
            ⟨0, 0, 0⟩⟩]).playerWallNormal.length ≥
        defaultConfig.WALL_CLIMB_MIN_NORMAL ∧
      (climbGate (updatePlayerContacts baseState defaultConfig
        [⟨true, false, -1/100, ⟨3/5, 0, 4/5⟩, ⟨0, 5, 0⟩, ⟨0, 0, 0⟩⟩,
          ⟨true, false, -1/100, ⟨3/5, 0, -(4/5)⟩, ⟨0, 5, 0⟩, ⟨0, 0, 0⟩⟩,
          ⟨true, false, -1/100, ⟨-1, 0, 0⟩, ⟨0, 5, 0⟩, ⟨0, 0, 0⟩⟩])
        defaultConfig false 1).playerClimbing = true := by
  obtain ⟨hOn, hN, hPre⟩ := cx2_eval
  have hlen : (updatePlayerContacts baseState defaultConfig
      [⟨true, false, -1/100, ⟨3/5, 0, 4/5⟩, ⟨0, 5, 0⟩, ⟨0, 0, 0⟩⟩,
        ⟨true, false, -1/100, ⟨3/5, 0, -(4/5)⟩, ⟨0, 5, 0⟩, ⟨0, 0, 0⟩⟩,
        ⟨true, false, -1/100, ⟨-1, 0, 0⟩, ⟨0, 5, 0⟩,
          ⟨0, 0, 0⟩⟩]).playerWallNormal.length = 1 := by
    rw [hN]
    simp [Vec3.length, Vec3.normSq]
  refine ⟨by rw [hPre]; norm_num [defaultConfig],
    by rw [hlen]; norm_num [defaultConfig], ?_⟩
  have hcl : (updatePlayerContacts baseState defaultConfig
      [⟨true, false, -1/100, ⟨3/5, 0, 4/5⟩, ⟨0, 5, 0⟩, ⟨0, 0, 0⟩⟩,
        ⟨true, false, -1/100, ⟨3/5, 0, -(4/5)⟩, ⟨0, 5, 0⟩, ⟨0, 0, 0⟩⟩,
        ⟨true, false, -1/100, ⟨-1, 0, 0⟩, ⟨0, 5, 0⟩,
          ⟨0, 0, 0⟩⟩]).playerClimbing = false := by
    norm_num [updatePlayerContacts, upcRenorm, upcLand, contactStep,
      List.foldl, baseState, defaultConfig, Vec3.zero, Vec3.length,
      Vec3.normSq, Real.sqrt_one]
  have hti : (updatePlayerContacts baseState defaultConfig
      [⟨true, false, -1/100, ⟨3/5, 0, 4/5⟩, ⟨0, 5, 0⟩, ⟨0, 0, 0⟩⟩,
        ⟨true, false, -1/100, ⟨3/5, 0, -(4/5)⟩, ⟨0, 5, 0⟩, ⟨0, 0, 0⟩⟩,
        ⟨true, false, -1/100, ⟨-1, 0, 0⟩, ⟨0, 5, 0⟩,
          ⟨0, 0, 0⟩⟩]).climbExitTimer = 0 := by
    norm_num [updatePlayerContacts, upcRenorm, upcLand, contactStep,
      List.foldl, baseState, defaultConfig, Vec3.zero, Vec3.length,
      Vec3.normSq, Real.sqrt_one]
  exact climbGate_enters _ defaultConfig 1 hcl one_pos (le_of_eq hti) hOn
    (by rw [hlen]; norm_num [defaultConfig])

/-- Witness for C2 (amended): on the same three wall contacts the stored
normal's length is exactly 1 — the left disjunct of the amended theorem. -/
theorem wall_confidence_post_renorm_witness :
    (updatePlayerContacts baseState defaultConfig
        [⟨true, false, -1/100, ⟨3/5, 0, 4/5⟩, ⟨0, 5, 0⟩, ⟨0, 0, 0⟩⟩,
          ⟨true, false, -1/100, ⟨3/5, 0, -(4/5)⟩, ⟨0, 5, 0⟩, ⟨0, 0, 0⟩⟩,
          ⟨true, false, -1/100, ⟨-1, 0, 0⟩, ⟨0, 5, 0⟩,
            ⟨0, 0, 0⟩⟩]).playerWallNormal.length = 1 ∨
      (updatePlayerContacts baseState defaultConfig
        [⟨true, false, -1/100, ⟨3/5, 0, 4/5⟩, ⟨0, 5, 0⟩, ⟨0, 0, 0⟩⟩,
          ⟨true, false, -1/100, ⟨3/5, 0, -(4/5)⟩, ⟨0, 5, 0⟩, ⟨0, 0, 0⟩⟩,
          ⟨true, false, -1/100, ⟨-1, 0, 0⟩, ⟨0, 5, 0⟩,
            ⟨0, 0, 0⟩⟩]).playerWallNormal.length ≤ 1e-6 :=
  wall_confidence_post_renorm baseState defaultConfig
    [⟨true, false, -1/100, ⟨3/5, 0, 4/5⟩, ⟨0, 5, 0⟩, ⟨0, 0, 0⟩⟩,
      ⟨true, false, -1/100, ⟨3/5, 0, -(4/5)⟩, ⟨0, 5, 0⟩, ⟨0, 0, 0⟩⟩,
      ⟨true, false, -1/100, ⟨-1, 0, 0⟩, ⟨0, 5, 0⟩, ⟨0, 0, 0⟩⟩]
    cx2_eval.1

/-! ## C6: the magnitude-clamped velocity step and the linear ramp-up -/

theorem Vec3.ext3 (a b : Vec3) (hx : a.x = b.x) (hy : a.y = b.y)
    (hz : a.z = b.z) : a = b := by
  cases a; cases b; simp_all

theorem Vec3.smul_one (a : Vec3) : a.smul 1 = a := by
  apply Vec3.ext3 <;> simp [Vec3.smul]

theorem Vec3.smul_smul (a : Vec3) (c d : ℝ) :
    (a.smul c).smul d = a.smul (c * d) := by
  apply Vec3.ext3 <;> simp [Vec3.smul] <;> ring

theorem Vec3.smul_sub_smul (a : Vec3) (c d : ℝ) :
    (a.smul c).sub (a.smul d) = a.smul (c - d) := by
  apply Vec3.ext3 <;> simp [Vec3.smul, Vec3.sub] <;> ring

theorem Vec3.smul_add_smul (a : Vec3) (c d : ℝ) :
    (a.smul c).add (a.smul d) = a.smul (c + d) := by
  apply Vec3.ext3 <;> simp [Vec3.smul, Vec3.add] <;> ring

theorem Vec3.add_zero3 (a : Vec3) : a.add ⟨0, 0, 0⟩ = a := by
  apply Vec3.ext3 <;> simp [Vec3.add]

theorem Vec3.add_sub_cancel3 (a b : Vec3) : (a.add b).sub a = b := by
  apply Vec3.ext3 <;> simp [Vec3.add, Vec3.sub]

theorem Vec3.smul_zero3 (a : Vec3) : a.smul 0 = (⟨0, 0, 0⟩ : Vec3) := by
  apply Vec3.ext3 <;> simp [Vec3.smul]

theorem Vec3.dot_smul_left (a b : Vec3) (c : ℝ) :
    (a.smul c).dot b = c * a.dot b := by
  simp [Vec3.smul, Vec3.dot]; ring

theorem Vec3.dot_smul_right (a b : Vec3) (c : ℝ) :
    a.dot (b.smul c) = c * a.dot b := by
  simp [Vec3.smul, Vec3.dot]; ring

theorem Vec3.dot_self (a : Vec3) : a.dot a = a.normSq := rfl

theorem Vec3.length_one_of_normSq_one (a : Vec3) (h : a.normSq = 1) :
    a.length = 1 := by
  rw [Vec3.length, h, Real.sqrt_one]

theorem Vec3.normalize_of_normSq_one (a : Vec3) (h : a.normSq = 1) :
    a.normalize = a := by
  rw [Vec3.normalize, Vec3.length_one_of_normSq_one a h]
  norm_num [Vec3.smul_one]

/-- The clamped step along a fixed unit direction: starting at speed `c`
toward target speed `M` with step budget `rate * dt` at least `1e-6`, the
result is the speed `min (c + rate * dt) M` along the same direction. -/
theorem amStepVel_along (f : Vec3) (hf1 : f.normSq = 1) (c M rate dt : ℝ)
    (hc : c ≤ M) (hε : 1e-6 ≤ rate * dt) :
    amStepVel (f.smul c) (f.smul M) rate dt =
      f.smul (min (c + rate * dt) M) := by
  have hlen1 : f.length = 1 := Vec3.length_one_of_normSq_one f hf1
  have hdelta : (f.smul M).sub (f.smul c) = f.smul (M - c) :=
    Vec3.smul_sub_smul f M c
  have hdlen : ((f.smul M).sub (f.smul c)).length = M - c := by
    rw [hdelta, Vec3.length_smul, hlen1, abs_of_nonneg (by linarith)]
    ring
  by_cases hbig : M - c > rate * dt
  · rw [amStepVel]
    rw [if_pos ⟨by rw [hdlen]; exact hbig, by rw [hdlen]; linarith⟩]
    rw [hdlen, hdelta, Vec3.smul_smul, Vec3.smul_add_smul]
    have hne : M - c ≠ 0 := by intro h0; rw [h0] at hbig; linarith
    rw [show (M - c) * (rate * dt / (M - c)) = rate * dt by
      field_simp]
    rw [min_eq_left (by linarith)]
  · rw [amStepVel]
    rw [if_neg (by rw [hdlen]; intro hh; exact hbig hh.1)]
    rw [hdelta, Vec3.smul_add_smul]
    rw [show c + (M - c) = M by ring, min_eq_right (by linarith)]

/-- The actual step magnitude never exceeds the larger of the budget
`rate * dt` and the `1e-6` clamp guard. -/
theorem amStepVel_bound (current target : Vec3) (rate dt : ℝ)
    (h0 : 0 ≤ rate * dt) :
    ((amStepVel current target rate dt).sub current).length ≤
      max (rate * dt) 1e-6 := by
  rw [amStepVel]
  by_cases hcond : (target.sub current).length > rate * dt ∧
      (target.sub current).length > 1e-6
  · rw [if_pos hcond, Vec3.add_sub_cancel3, Vec3.length_smul]
    have hpos : (0:ℝ) < (target.sub current).length := by
      have := hcond.2
      linarith [Vec3.length_nonneg (target.sub current)]
    rw [abs_of_nonneg (div_nonneg h0 hpos.le), div_mul_cancel₀ _ hpos.ne']
    exact le_max_left _ _
  · rw [if_neg hcond, Vec3.add_sub_cancel3]
    rcases not_and_or.mp hcond with h | h
    · exact (not_lt.mp h).trans (le_max_left _ _)
    · exact (not_lt.mp h).trans (le_max_right _ _)

theorem Vec3.dot_normalize_zero (a b : Vec3) (h : a.dot b = 0) :
    a.dot b.normalize = 0 := by
  rw [Vec3.normalize, Vec3.dot_smul_right, h, mul_zero]

theorem Vec3.dot_setY0_zero (a b : Vec3) (hay : a.y = 0) (h : a.dot b = 0) :
    a.dot b.setY0 = 0 := by
  rw [Vec3.dot] at *
  rw [hay] at h ⊢
  simp only [Vec3.setY0]
  ring_nf at h ⊢
  linarith

theorem Vec3.setY0_self (a : Vec3) (h : a.y = 0) : a.setY0 = a :=
  Vec3.ext3 _ _ rfl h.symm rfl

/-- The strafe-damp recombination is the identity on velocities along the
(unit) forward direction when the lateral basis direction is orthogonal. -/
theorem strafeDamp_along (f r2 : Vec3) (k rk : ℝ) (hf1 : f.normSq = 1)
    (hfr0 : f.dot r2 = 0) :
    (f.smul ((f.smul k).dot f)).add (r2.smul ((f.smul k).dot r2 * rk)) =
      f.smul k := by
  rw [Vec3.dot_smul_left, Vec3.dot_self, hf1, mul_one, Vec3.dot_smul_left,
    hfr0]
  simp [Vec3.smul_zero3, Vec3.add_zero3]

@[simp] theorem applyCharacterMovement_forwardV (s : GameState)
    (cfg : Config) (ma dt : ℝ) (r : Bool) :
    (applyCharacterMovement s cfg ma dt r).forwardV = s.forwardV := rfl

@[simp] theorem applyCharacterMovement_rightV (s : GameState)
    (cfg : Config) (ma dt : ℝ) (r : Bool) :
    (applyCharacterMovement s cfg ma dt r).rightV = s.rightV := rfl

@[simp] theorem applyCharacterMovement_playerOnWall (s : GameState)
    (cfg : Config) (ma dt : ℝ) (r : Bool) :
    (applyCharacterMovement s cfg ma dt r).playerOnWall =
      s.playerOnWall := rfl

/-- One grounded frame of `applyCharacterMovement` with forward held, from
speed `c` along the unit horizontal forward direction: the written-back
velocity is the speed `min (c + accel * dt) maxSpeed` along the same
direction, with the vertical component passed through. -/
theorem ground_drive_step (s : GameState) (cfg : Config) (dt c : ℝ)
    (rayHit : Bool) (hg : s.playerGrounded = true)
    (hf1 : s.forwardV.normSq = 1) (hfy : s.forwardV.y = 0)
    (hfr : s.forwardV.dot s.rightV = 0)
    (hvx : s.bodyVel.x = s.forwardV.x * c)
    (hvz : s.bodyVel.z = s.forwardV.z * c)
    (hc0 : 0 ≤ c) (hcM : c ≤ cfg.PLAYER_MAX_SPEED)
    (hacc : 1e-6 ≤ cfg.PLAYER_ACCEL * dt) :
    (applyCharacterMovement s cfg 1 dt rayHit).bodyVel =
      ⟨s.forwardV.x * min (c + cfg.PLAYER_ACCEL * dt) cfg.PLAYER_MAX_SPEED,
        s.bodyVel.y,
        s.forwardV.z *
          min (c + cfg.PLAYER_ACCEL * dt) cfg.PLAYER_MAX_SPEED⟩ := by
  have hgr : isGrounded s rayHit = true := by simp [isGrounded, hg]
  have hma : amMoveAxis s cfg 1 rayHit = 1 := by
    rw [amMoveAxis, if_neg]
    simp [hgr]
  have hws : ¬amWallSliding s 1 rayHit := by
    rw [amWallSliding]
    simp [hgr]
  have hcur : (⟨s.bodyVel.x, 0, s.bodyVel.z⟩ : Vec3) = s.forwardV.smul c := by
    apply Vec3.ext3 <;> simp [Vec3.smul, hvx, hvz, hfy]
  have hbasis1 : (getPlayerBasis s).1 = s.forwardV := by
    rw [getPlayerBasis, Vec3.normalize_of_normSq_one _ hf1]
  have hstep : amStepVel (s.forwardV.smul c)
      (s.forwardV.smul cfg.PLAYER_MAX_SPEED) cfg.PLAYER_ACCEL dt =
        s.forwardV.smul
          (min (c + cfg.PLAYER_ACCEL * dt) cfg.PLAYER_MAX_SPEED) :=
    amStepVel_along s.forwardV hf1 c cfg.PLAYER_MAX_SPEED cfg.PLAYER_ACCEL dt
      hcM hacc
  have hkmin0 : 0 ≤ min (c + cfg.PLAYER_ACCEL * dt) cfg.PLAYER_MAX_SPEED := by
    have : (0:ℝ) < 1e-6 := by norm_num
    exact le_min (by linarith) (by linarith)
  have hpre : amPreVel s cfg 1 dt rayHit =
      s.forwardV.smul
        (min (c + cfg.PLAYER_ACCEL * dt) cfg.PLAYER_MAX_SPEED) := by
    simp only [amPreVel, hbasis1, hcur, hgr, if_true, hws, false_and,
      if_false, mul_one, ne_eq, one_ne_zero, not_false_iff]
    rw [hstep]
    by_cases hd : cfg.PLAYER_USE_STRAFE_DAMP = true
    · simp only [hd, if_true]
      rw [Vec3.setY0_self _ hfy, Vec3.normalize_of_normSq_one _ hf1]
      exact strafeDamp_along s.forwardV
        ((getPlayerBasis s).2.setY0.normalize) _ _ hf1
        (Vec3.dot_normalize_zero _ _ (Vec3.dot_setY0_zero _ _ hfy
          (Vec3.dot_normalize_zero _ _ hfr)))
    · simp only [hd, Bool.false_eq_true, if_false]
  have hlen : (s.forwardV.smul
      (min (c + cfg.PLAYER_ACCEL * dt) cfg.PLAYER_MAX_SPEED)).length =
        min (c + cfg.PLAYER_ACCEL * dt) cfg.PLAYER_MAX_SPEED := by
    rw [Vec3.length_smul, Vec3.length_one_of_normSq_one _ hf1,
      abs_of_nonneg hkmin0]
    ring
  have hnslide : ¬(amWallSliding s 1 rayHit ∧
      s.playerWallNormal.normSq > 1e-6) := fun hh => hws hh.1
  simp only [applyCharacterMovement, hma, hpre]
  simp only [amFinish, if_neg hnslide]
  rw [if_neg (by rw [hlen]; exact not_lt.mpr (min_le_right _ _))]
  rfl

/-! ## C6: the magnitude-clamped acceleration step and the ground ramp -/

/-- Modelled from the spec: the magnitude-clamped velocity step exactly as the
claim words it, with `|delta|` clamped to `rate * dt` whenever it exceeds that
budget — without the source's additional `deltaLen > 1e-6` guard. -/
def specClampedStep (current target : Vec3) (rate dt : ℝ) : Vec3 :=
  let maxDelta := rate * dt
  let delta0 := target.sub current
  let deltaLen := delta0.length
  let delta :=
    if deltaLen > maxDelta then delta0.smul (maxDelta / deltaLen)
    else delta0
  current.add delta

theorem iterate_acm_forwardV (s : GameState) (cfg : Config) (ma dt : ℝ)
    (r : Bool) (k : ℕ) :
    ((fun t => applyCharacterMovement t cfg ma dt r)^[k] s).forwardV =
      s.forwardV := by
  induction k with
  | zero => rfl
  | succ k ih =>
    simp only [Function.iterate_succ_apply', applyCharacterMovement_forwardV]
    exact ih

theorem iterate_acm_rightV (s : GameState) (cfg : Config) (ma dt : ℝ)
    (r : Bool) (k : ℕ) :
    ((fun t => applyCharacterMovement t cfg ma dt r)^[k] s).rightV =
      s.rightV := by
  induction k with
  | zero => rfl
  | succ k ih =>
    simp only [Function.iterate_succ_apply', applyCharacterMovement_rightV]
    exact ih

theorem iterate_acm_playerGrounded (s : GameState) (cfg : Config) (ma dt : ℝ)
    (r : Bool) (k : ℕ) :
    ((fun t => applyCharacterMovement t cfg ma dt r)^[k] s).playerGrounded =
      s.playerGrounded := by
  induction k with
  | zero => rfl
  | succ k ih =>
    simp only [Function.iterate_succ_apply',
      applyCharacterMovement_playerGrounded]
    exact ih

/-- The capped ramp advances by one accel step:
`min (min (k a) M + a) M = min ((k + 1) a) M` for a positive step `a`. -/
theorem min_ramp_succ (a M : ℝ) (ha : 0 < a) (k : ℕ) :
    min (min ((k : ℝ) * a) M + a) M = min (((k : ℝ) + 1) * a) M := by
  rcases le_total ((k : ℝ) * a) M with h | h
  · rw [min_eq_left h]
    have hr : (k : ℝ) * a + a = ((k : ℝ) + 1) * a := by ring
    rw [hr]
  · have hexp : ((k : ℝ) + 1) * a = (k : ℝ) * a + a := by ring
    have hk1 : M ≤ ((k : ℝ) + 1) * a := by rw [hexp]; linarith
    rw [min_eq_right h, min_eq_right (by linarith), min_eq_right hk1]

/-- C6 (amended).  The movement integrator's velocity update agrees with the
claim's magnitude-clamped linear step whenever the delta is either within the
`rate * dt` budget or longer than `1e-6` — the source additionally guards the
clamp by `deltaLen > 1e-6`, so a tiny over-budget delta is added in full —
and in the claim's scenario (grounded, forward held from rest along the unit
horizontal forward axis, with `accel * dt ≥ 1e-6`) the velocity after `k`
frames is exactly `min (k * accel * dt) maxSpeed` along the forward axis: the
speed grows linearly at rate `accel` and never overshoots `maxSpeed`. -/
theorem ground_drive_linear (s : GameState) (cfg : Config) (dt : ℝ)
    (rayHit : Bool) (k : ℕ) (hg : s.playerGrounded = true)
    (hf1 : s.forwardV.normSq = 1) (hfy : s.forwardV.y = 0)
    (hfr : s.forwardV.dot s.rightV = 0)
    (hvx : s.bodyVel.x = 0) (hvz : s.bodyVel.z = 0)
    (hM : 0 ≤ cfg.PLAYER_MAX_SPEED)
    (hacc : 1e-6 ≤ cfg.PLAYER_ACCEL * dt) :
    (∀ current target rate dt2,
        (target.sub current).length ≤ rate * dt2 ∨
          1e-6 < (target.sub current).length →
        amStepVel current target rate dt2 =
          specClampedStep current target rate dt2) ∧
    ((fun t => applyCharacterMovement t cfg 1 dt rayHit)^[k] s).bodyVel =
      ⟨s.forwardV.x * min ((k : ℝ) * (cfg.PLAYER_ACCEL * dt))
          cfg.PLAYER_MAX_SPEED,
        s.bodyVel.y,
        s.forwardV.z * min ((k : ℝ) * (cfg.PLAYER_ACCEL * dt))
          cfg.PLAYER_MAX_SPEED⟩ := by
  constructor
  · intro current target rate dt2 hok
    simp only [amStepVel, specClampedStep]
    by_cases h1 : (target.sub current).length > rate * dt2
    · rcases hok with hle | h6
      · exact absurd h1 (not_lt.mpr hle)
      · rw [if_pos ⟨h1, h6⟩, if_pos h1]
    · rw [if_neg (fun hh => h1 hh.1), if_neg h1]
  · have ha : 0 < cfg.PLAYER_ACCEL * dt :=
      lt_of_lt_of_le (by norm_num) hacc
    induction k with
    | zero =>
      simp only [Function.iterate_zero, id_eq, Nat.cast_zero, zero_mul]
      rw [min_eq_left hM]
      apply Vec3.ext3
      · simp [hvx]
      · rfl
      · simp [hvz]
    | succ k ih =>
      have hfV := iterate_acm_forwardV s cfg 1 dt rayHit k
      have hrV := iterate_acm_rightV s cfg 1 dt rayHit k
      have hgV := iterate_acm_playerGrounded s cfg 1 dt rayHit k
      have hc0 : 0 ≤ min ((k : ℝ) * (cfg.PLAYER_ACCEL * dt))
          cfg.PLAYER_MAX_SPEED :=
        le_min (mul_nonneg (Nat.cast_nonneg k) ha.le) hM
      have hstep := ground_drive_step
        ((fun t => applyCharacterMovement t cfg 1 dt rayHit)^[k] s) cfg dt
        (min ((k : ℝ) * (cfg.PLAYER_ACCEL * dt)) cfg.PLAYER_MAX_SPEED) rayHit
        (by rw [hgV]; exact hg) (by rw [hfV]; exact hf1)
        (by rw [hfV]; exact hfy) (by rw [hfV, hrV]; exact hfr)
        (by rw [ih, hfV]) (by rw [ih, hfV]) hc0 (min_le_right _ _) hacc
      simp only [Function.iterate_succ_apply']
      rw [hstep, hfV,
        min_ramp_succ (cfg.PLAYER_ACCEL * dt) cfg.PLAYER_MAX_SPEED ha k,
        Nat.cast_succ, ih]

/-- The grounded resting version of the baseline state, for the ramp
scenario. -/
def rampState : GameState :=
  { baseState with playerGrounded := true }

/-- Witness for C6 (amended): two 10 ms frames of the default configuration
drive the resting grounded player from rest to speed `2 * 55 * 0.01 = 1.1`
straight ahead, on the linear ramp below the `15` cap. -/
theorem ground_drive_linear_witness :
    ((fun t => applyCharacterMovement t defaultConfig 1 (1 / 100) false)^[2]
        rampState).bodyVel = ⟨0, 0, 11 / 10⟩ := by
  have h := (ground_drive_linear rampState defaultConfig (1 / 100) false 2
      rfl (by norm_num [rampState, baseState, Vec3.normSq]) rfl
      (by norm_num [rampState, baseState, Vec3.dot]) rfl rfl
      (by norm_num [defaultConfig]) (by norm_num [defaultConfig])).2
  rw [h]
  norm_num [rampState, baseState, defaultConfig, Vec3.zero, min_def]

/-- Counterexample for C6 as stated: a braking step whose velocity delta
(length `1e-7`) exceeds the step budget `rate * dt = 1e-8` is nevertheless
added in full, because the source clamps only deltas longer than `1e-6`; the
claim's unconditional clamp would instead leave the residual speed
`9e-8`. -/
theorem clamped_step_cx :
    (amStepVel ⟨1 / 10000000, 0, 0⟩ Vec3.zero 1 (1 / 100000000)).x = 0 ∧
    (specClampedStep ⟨1 / 10000000, 0, 0⟩ Vec3.zero 1 (1 / 100000000)).x =
      9 / 100000000 ∧
    (0 : ℝ) ≠ 9 / 100000000 := by
  have hsq : (Vec3.sub Vec3.zero ⟨1 / 10000000, 0, 0⟩).normSq =
      (1 / 10000000 : ℝ) ^ 2 := by
    norm_num [Vec3.zero, Vec3.sub, Vec3.normSq]
  have hlen : (Vec3.sub Vec3.zero ⟨1 / 10000000, 0, 0⟩).length =
      1 / 10000000 := by
    rw [Vec3.length, hsq, Real.sqrt_sq (by norm_num)]
  refine ⟨?_, ?_, by norm_num⟩
  · simp only [amStepVel]
    rw [hlen, if_neg (by norm_num)]
    norm_num [Vec3.zero, Vec3.sub, Vec3.add]
  · simp only [specClampedStep]
    rw [hlen, if_pos (by norm_num)]
    norm_num [Vec3.zero, Vec3.sub, Vec3.add, Vec3.smul]

/-! ## C10: the frame-pipeline guards -/

/-- The baseline state with the physics world never created. -/
def noWorldState : GameState :=
  { baseState with physicsWorld := false }

/-- The baseline state with the character body absent. -/
def noPlayerState : GameState :=
  { baseState with Player := false }

/-- Counterexample for C10 as stated: with the physics world and renderer
present but the character body absent, the frame is not a no-op — `stepCore`
still issues the physics step, the visual sync, the mixer advance and the
render call. -/
theorem pipeline_noop_cx :
    (stepCore noPlayerState defaultConfig
        ⟨1 / 60, [], false, Vec3.zero, Vec3.zero⟩).2 ≠ [] := by
  have hguard : ¬¬(noPlayerState.physicsWorld ∧ noPlayerState.renderer) := by
    simp [noPlayerState, baseState]
  rw [stepCore, if_neg hguard]
  simp [noPlayerState, baseState, updatePlayerContacts, handleInput]

/-- C10 (amended).  An uninitialized physics world or missing renderer makes
the frame a true no-op: the state is unchanged and no external call is made.
An absent character body, by contrast, only idles the player-specific stages:
the physics step, the visual sync, the mixer advance (when a mixer exists)
and the render call still happen, and the returned state is the input with
the per-frame contact flags cleared by the classifier's reset. -/
theorem pipeline_guard (s : GameState) (cfg : Config) (fi : FrameIn) :
    (¬(s.physicsWorld ∧ s.renderer) → stepCore s cfg fi = (s, [])) ∧
    (s.physicsWorld = true → s.renderer = true → s.Player = false →
      stepCore s cfg fi =
        ({ s with
            playerGrounded := false
            playerOnWall := false
            playerWallNormal := Vec3.zero },
          [Effect.physicsStep fi.dt, Effect.syncVisuals] ++
            (if s.playerMixer then [Effect.mixerUpdate fi.dt] else []) ++
            [Effect.renderFrame])) := by
  constructor
  · intro h
    rw [stepCore, if_pos h]
  · intro hw hr hP
    have hguard : ¬¬(s.physicsWorld ∧ s.renderer) := by simp [hw, hr]
    have hg0 : ¬(s.Player = true ∧ s.dispatcher = true ∧
        s.playerPtr = true) := by simp [hP]
    have hC : updatePlayerContacts s cfg fi.contacts =
        { s with
            playerGrounded := false
            playerOnWall := false
            playerWallNormal := Vec3.zero } := by
      rw [updatePlayerContacts]
      exact if_pos hg0
    have hP0 : ({ s with
        playerGrounded := false
        playerOnWall := false
        playerWallNormal := Vec3.zero } : GameState).Player = false := hP
    have hH : handleInput
        ({ s with
            playerGrounded := false
            playerOnWall := false
            playerWallNormal := Vec3.zero } : GameState) cfg fi.dt fi.rayHit =
        { s with
            playerGrounded := false
            playerOnWall := false
            playerWallNormal := Vec3.zero } := by
      rw [handleInput]
      exact if_pos (by simp [hP])
    have hA : updatePlayerAnimationState
        ({ s with
            playerGrounded := false
            playerOnWall := false
            playerWallNormal := Vec3.zero } : GameState) cfg fi.dt fi.rayHit =
        { s with
            playerGrounded := false
            playerOnWall := false
            playerWallNormal := Vec3.zero } := by
      rw [updatePlayerAnimationState]
      exact if_pos (by simp [hP])
    have hCam : updateCamera
        ({ s with
            playerGrounded := false
            playerOnWall := false
            playerWallNormal := Vec3.zero } : GameState) cfg =
        { s with
            playerGrounded := false
            playerOnWall := false
            playerWallNormal := Vec3.zero } := by
      rw [updateCamera]
      exact if_pos (by simp [hP])
    rw [stepCore, if_neg hguard]
    simp only [hP, Bool.false_eq_true, if_false]
    rw [hC, hH, hA, hCam, hP]

/-- Witness for C10 (amended): a missing physics world makes the frame a
strict no-op, while an absent character body with everything else present
still produces the physics step, the visual sync, the mixer advance and the
render call, clearing only the contact flags. -/
theorem pipeline_guard_witness :
    stepCore noWorldState defaultConfig
        ⟨1 / 60, [], false, Vec3.zero, Vec3.zero⟩ = (noWorldState, []) ∧
    stepCore noPlayerState defaultConfig
        ⟨1 / 60, [], false, Vec3.zero, Vec3.zero⟩ =
      ({ noPlayerState with
          playerGrounded := false
          playerOnWall := false
          playerWallNormal := Vec3.zero },
        [Effect.physicsStep (1 / 60), Effect.syncVisuals,
          Effect.mixerUpdate (1 / 60), Effect.renderFrame]) := by
  constructor
  · exact (pipeline_guard noWorldState defaultConfig
      ⟨1 / 60, [], false, Vec3.zero, Vec3.zero⟩).1
      (by simp [noWorldState, baseState])
  · have h := (pipeline_guard noPlayerState defaultConfig
      ⟨1 / 60, [], false, Vec3.zero, Vec3.zero⟩).2 rfl rfl rfl
    rw [h]
    norm_num [noPlayerState, baseState]

end

end GameCore
